import Mathlib

/-! TicketService: validation, pricing and collaborator calls

A shallow embedding of `src/pairtest/TicketService.js` and the properties of
`purchaseTickets` proved about it.

Modelling conventions.

* A JavaScript value is kept only as far as the service looks at it: either an
  integer-valued number (`JSVal.int`) or anything else (`JSVal.other`: a
  fractional number, `NaN`, an infinity, a string, `undefined`, an object).
  `Number.isInteger` is the single test the service applies to such a value.
* The numbers the service computes with are IEEE doubles.  Starting from
  integer counts, `+` and `*` only ever produce an integer-valued double, an
  infinity or `NaN` (`JSNum`); every sum and product is the exact integer
  result rounded to 53 significant bits, ties to even, and overflowing to an
  infinity from `2 ^ 1024` on (`roundInt`).  `JSVal.int i` stands for the
  integer-valued double `i`.
* `TicketTypeRequest` is imported from `./lib/TicketTypeRequest.js`; the
  service relies only on `instanceof` and on the two getters.  An element of
  the rest parameter is therefore either not an instance of that class, or an
  instance exposing what `getTicketType()` and `getNoOfTickets()` return, with
  no further assumption on either.
* The two collaborators are parameters.  A collaborator call either returns or
  throws; `purchaseTickets` yields its outcome together with the list of
  collaborator calls it issued, in order.
-/

namespace TicketService

/-- A JavaScript value, as far as `TicketService` inspects it. -/
inductive JSVal where
  | int (i : Int)
  | other
deriving DecidableEq, Repr

/-- The test `Number.isInteger(v)`. -/
def Number.isInteger : JSVal → Bool
  | .int _ => true
  | .other => false

/-- A number produced by the arithmetic of the service: an integer-valued
finite double, an infinity, or `NaN`. -/
inductive JSNum where
  | fin (i : Int)
  | posInf
  | negInf
  | nan
deriving DecidableEq, Repr

/-- Number of low-order bits a natural number has beyond 53 significant
bits, found by halving; the first argument bounds the number of halvings. -/
def expOf : Nat → Nat → Nat
  | 0, _ => 0
  | fuel + 1, m => if m < 2 ^ 53 then 0 else expOf fuel (m / 2) + 1

/-- The double nearest to a natural number: the number itself below `2 ^ 53`,
otherwise its 53 leading bits rounded to nearest, ties to even, and
`Infinity` when the rounded value reaches `2 ^ 1024`. -/
def roundNat (m : Nat) : JSNum :=
  if m < 2 ^ 53 then .fin m
  else
    let e := expOf m m
    let q := m / 2 ^ e
    let r := m % 2 ^ e
    let half := 2 ^ (e - 1)
    let q1 := if half < r ∨ (r = half ∧ q % 2 = 1) then q + 1 else q
    if (2 ^ 128) ^ 8 ≤ q1 * 2 ^ e then .posInf else .fin (q1 * 2 ^ e)

/-- Unary minus on the numbers of the service. -/
def JSNum.neg : JSNum → JSNum
  | .fin i => .fin (-i)
  | .posInf => .negInf
  | .negInf => .posInf
  | .nan => .nan

/-- The double nearest to an integer. -/
def roundInt (z : Int) : JSNum :=
  if 0 ≤ z then roundNat z.toNat else (roundNat (-z).toNat).neg

/-- The operator `+` on numbers. -/
def JSNum.add : JSNum → JSNum → JSNum
  | .fin a, .fin b => roundInt (a + b)
  | .nan, _ => .nan
  | _, .nan => .nan
  | .posInf, .negInf => .nan
  | .negInf, .posInf => .nan
  | .posInf, _ => .posInf
  | _, .posInf => .posInf
  | .negInf, _ => .negInf
  | _, .negInf => .negInf

/-- The operator `*` on numbers. -/
def JSNum.mul : JSNum → JSNum → JSNum
  | .fin a, .fin b => roundInt (a * b)
  | .nan, _ => .nan
  | _, .nan => .nan
  | .fin a, .posInf =>
    if a = 0 then .nan else if 0 < a then .posInf else .negInf
  | .fin a, .negInf =>
    if a = 0 then .nan else if 0 < a then .negInf else .posInf
  | .posInf, .fin b =>
    if b = 0 then .nan else if 0 < b then .posInf else .negInf
  | .negInf, .fin b =>
    if b = 0 then .nan else if 0 < b then .negInf else .posInf
  | .posInf, .posInf => .posInf
  | .posInf, .negInf => .negInf
  | .negInf, .posInf => .negInf
  | .negInf, .negInf => .posInf

/-- The operator `===` on numbers. -/
def JSNum.strictEq : JSNum → JSNum → Bool
  | .fin a, .fin b => decide (a = b)
  | .posInf, .posInf => true
  | .negInf, .negInf => true
  | _, _ => false

/-- The operator `>` on numbers. -/
def JSNum.gt : JSNum → JSNum → Bool
  | .fin a, .fin b => decide (a > b)
  | .posInf, .fin _ => true
  | .posInf, .negInf => true
  | .fin _, .negInf => true
  | _, _ => false

/-- An element of `...ticketTypeRequests`: something that fails
`req instanceof TicketTypeRequest`, or an instance with the results of
`getTicketType()` and `getNoOfTickets()`. -/
inductive Req where
  | notInstance
  | ticket (type : String) (noOfTickets : JSVal)
deriving DecidableEq, Repr

/-- The object returned by `#countTickets`. -/
structure Counts where
  adultCount : JSNum
  childCount : JSNum
  infantCount : JSNum
deriving DecidableEq, Repr

/-- A call received by one of the two collaborators. -/
inductive Call where
  | makePayment (accountId : JSVal) (totalAmountToPay : Int)
  | reserveSeat (accountId : JSVal) (totalSeatsToAllocate : Int)
deriving DecidableEq, Repr

/-- The payment and seat services handed to the constructor.  `none` stands
for a call that returns, `some e` for a call that throws `e`. -/
structure Collaborators where
  makePayment : JSVal → Int → Option String
  reserveSeat : JSVal → Int → Option String

/-- How a call of `purchaseTickets` ends. -/
inductive Outcome where
  /-- The method ran to its end. -/
  | returned
  /-- An `InvalidPurchaseException` with the given message was thrown by the
  service itself. -/
  | invalidPurchase (message : String)
  /-- A collaborator threw and the service let it through. -/
  | collaboratorFailure (e : String)
  /-- The loop of `#countTickets` met an element that is not an instance with
  an integer count: the arithmetic leaves the numbers of `JSNum`. -/
  | nonIntegerArithmetic
deriving DecidableEq, Repr

/-- Outcome of a call together with the collaborator calls issued, oldest
first. -/
structure Run where
  outcome : Outcome
  calls : List Call
deriving DecidableEq, Repr

/-- Private method `#validateAccountId`:
`if (!Number.isInteger(accountId) || accountId <= 0) throw ...`.
The comparison is evaluated only for an integer because `||` short-circuits. -/
def validateAccountId (accountId : JSVal) : Except String Unit :=
  match accountId with
  | .other => .error "accountId must be an integer > 0"
  | .int i =>
    if i ≤ 0 then .error "accountId must be an integer > 0" else .ok ()

/-- The `for (const req of requests)` loop of `#validateRequests`. -/
def validateEach : List Req → Except String Unit
  | [] => .ok ()
  | .notInstance :: _ =>
    .error "Each request must have a type and number of tickets"
  | .ticket _ .other :: _ => .error "ticket counts must be integers >= 0"
  | .ticket _ (.int n) :: rest =>
    if n < 0 then .error "ticket counts must be integers >= 0"
    else validateEach rest

/-- Private method `#validateRequests`.  The rest parameter is always an
array, so `!requests` is false and only the length test can fire. -/
def validateRequests (requests : List Req) : Except String Unit :=
  if requests.length = 0 then .error "No ticket requests provided"
  else validateEach requests

/-- The loop of `#countTickets`, with its three running totals. -/
def countLoop : List Req → JSNum → JSNum → JSNum → Option Counts
  | [], adultCount, childCount, infantCount =>
    some ⟨adultCount, childCount, infantCount⟩
  | .ticket type (.int n) :: rest, adultCount, childCount, infantCount =>
    countLoop rest
      (if type = "ADULT" then adultCount.add (.fin n) else adultCount)
      (if type = "CHILD" then childCount.add (.fin n) else childCount)
      (if type = "INFANT" then infantCount.add (.fin n) else infantCount)
  | _ :: _, _, _, _ => none

/-- Private method `#countTickets`. -/
def countTickets (requests : List Req) : Option Counts :=
  countLoop requests (.fin 0) (.fin 0) (.fin 0)

/-- Private method `#calculateAmount`.  `Number.isInteger(total)` holds
exactly of the finite values `fin t`; an infinity or `NaN` makes the method
throw. -/
def calculateAmount (adultCount childCount : JSNum) : Except String Int :=
  let adultAmount := adultCount.mul (.fin 25)
  let childAmount := childCount.mul (.fin 15)
  let total := adultAmount.add childAmount
  match total with
  | .fin t => .ok t
  | _ => .error "calculated amount must be an integer"

/-- Private method `#calculateSeats`.  `Number.isInteger(seats)` holds
exactly of the finite values `fin t`; an infinity or `NaN` makes the method
throw. -/
def calculateSeats (adultCount childCount : JSNum) : Except String Int :=
  let seats := adultCount.add childCount
  match seats with
  | .fin t => .ok t
  | _ => .error "calculated seats must be integer"

/-- The two statements after the checks: pay, then reserve. -/
def callCollaborators (svc : Collaborators) (accountId : JSVal)
    (totalAmountToPay totalSeatsToAllocate : Int) : Run :=
  match svc.makePayment accountId totalAmountToPay with
  | some e =>
    ⟨.collaboratorFailure e, [.makePayment accountId totalAmountToPay]⟩
  | none =>
    match svc.reserveSeat accountId totalSeatsToAllocate with
    | some e =>
      ⟨.collaboratorFailure e,
        [.makePayment accountId totalAmountToPay,
          .reserveSeat accountId totalSeatsToAllocate]⟩
    | none =>
      ⟨.returned,
        [.makePayment accountId totalAmountToPay,
          .reserveSeat accountId totalSeatsToAllocate]⟩

/-- The body of `purchaseTickets` from the business rules on, given the
counts returned by `#countTickets`. -/
def applyRules (svc : Collaborators) (accountId : JSVal) (counts : Counts) :
    Run :=
  let adultCount := counts.adultCount
  let childCount := counts.childCount
  let infantCount := counts.infantCount
  let totalTickets := (adultCount.add childCount).add infantCount
  if totalTickets.strictEq (.fin 0) = true then
    ⟨.invalidPurchase "At least one ticket must be purchased", []⟩
  else if totalTickets.gt (.fin 25) = true then
    ⟨.invalidPurchase "Cannot purchase more than 25 tickets at a time", []⟩
  else if (childCount.gt (.fin 0) = true ∨ infantCount.gt (.fin 0) = true) ∧
      adultCount.strictEq (.fin 0) = true then
    ⟨.invalidPurchase
      "Child and Infant tickets require at least one Adult ticket", []⟩
  else if infantCount.gt adultCount = true then
    ⟨.invalidPurchase
      "Each infant must be accompanied by an adult (infants <= adults)", []⟩
  else
    match calculateAmount adultCount childCount with
    | .error m => ⟨.invalidPurchase m, []⟩
    | .ok totalAmountToPay =>
      match calculateSeats adultCount childCount with
      | .error m => ⟨.invalidPurchase m, []⟩
      | .ok totalSeatsToAllocate =>
        callCollaborators svc accountId totalAmountToPay totalSeatsToAllocate

/-- Public method `purchaseTickets(accountId, ...ticketTypeRequests)`. -/
def purchaseTickets (svc : Collaborators) (accountId : JSVal)
    (ticketTypeRequests : List Req) : Run :=
  match validateAccountId accountId with
  | .error m => ⟨.invalidPurchase m, []⟩
  | .ok _ =>
    match validateRequests ticketTypeRequests with
    | .error m => ⟨.invalidPurchase m, []⟩
    | .ok _ =>
      match countTickets ticketTypeRequests with
      | none => ⟨.nonIntegerArithmetic, []⟩
      | some counts => applyRules svc accountId counts

/-! ## Vocabulary of the specification -/

/-- A well-formed ticket request: an instance whose count is an integer
`≥ 0`. -/
def Req.WellFormed : Req → Prop
  | .ticket _ (.int n) => 0 ≤ n
  | _ => False

instance (r : Req) : Decidable r.WellFormed := by
  unfold Req.WellFormed; split <;> infer_instance

/-- What one request contributes to the tickets of type `t`: its count when it
is an instance of that type with an integer count, nothing otherwise. -/
def Req.countOf (t : String) : Req → Int
  | .ticket type (.int n) => if type = t then n else 0
  | _ => 0

/-- Sum of the counts of the requests of type `t`. -/
def sumOf (t : String) (requests : List Req) : Int :=
  (requests.map (Req.countOf t)).sum

/-- Sum of the counts of the `ADULT` requests. -/
def adults (requests : List Req) : Int := sumOf "ADULT" requests

/-- Sum of the counts of the `CHILD` requests. -/
def children (requests : List Req) : Int := sumOf "CHILD" requests

/-- Sum of the counts of the `INFANT` requests. -/
def infants (requests : List Req) : Int := sumOf "INFANT" requests

/-- The mock collaborators of the test suite: every call returns. -/
def mockCollaborators : Collaborators := ⟨fun _ _ => none, fun _ _ => none⟩

/-- Whether a run ended with an `InvalidPurchaseException`. -/
def Run.failsInvalidPurchase (r : Run) : Prop :=
  ∃ message, r.outcome = .invalidPurchase message

/-- The checks of the specification, in its own vocabulary: a strictly
positive integer account, a non-empty sequence of well-formed requests, and the
four business rules on the per-type sums. -/
def PassesChecks (accountId : JSVal) (requests : List Req) : Prop :=
  (∃ k : Int, accountId = .int k ∧ 0 < k) ∧
  requests ≠ [] ∧
  (∀ r ∈ requests, r.WellFormed) ∧
  adults requests + children requests + infants requests ≠ 0 ∧
  adults requests + children requests + infants requests ≤ 25 ∧
  ¬ ((children requests > 0 ∨ infants requests > 0) ∧ adults requests = 0) ∧
  ¬ (infants requests > adults requests)

/-- How a number of the service stands for an exact non-negative sum `n`: it
is `n` itself below `2 ^ 53`, and at least `2 ^ 53` or `Infinity` from there
on. -/
def Approx (v : JSNum) (n : Int) : Prop :=
  (n < 2 ^ 53 ∧ v = .fin n) ∨
  (2 ^ 53 ≤ n ∧ (v = .posInf ∨ ∃ x : Int, 2 ^ 53 ≤ x ∧ v = .fin x))

/-- Recogniser of `makePayment` calls in a trace. -/
def Call.isMakePayment : Call → Bool
  | .makePayment _ _ => true
  | .reserveSeat _ _ => false

/-- Recogniser of `reserveSeat` calls in a trace. -/
def Call.isReserveSeat : Call → Bool
  | .makePayment _ _ => false
  | .reserveSeat _ _ => true

/-- A payment service whose `makePayment` always throws. -/
def decliningPayment : Collaborators :=
  ⟨fun _ _ => some "payment declined", fun _ _ => none⟩

/-- A seat service whose `reserveSeat` always throws. -/
def fullHouse : Collaborators :=
  ⟨fun _ _ => none, fun _ _ => some "no seat left"⟩

/-- Total number of tickets requested, over the three types. -/
def totalTickets (requests : List Req) : Int :=
  adults requests + children requests + infants requests

/-- The acceptance condition as the specification words it: a strictly
positive integer account, a non-empty sequence, between 1 and 25 tickets in
all, at least one adult, and no more infants than adults. -/
def Accepts (accountId : JSVal) (requests : List Req) : Prop :=
  (∃ k : Int, accountId = .int k ∧ 0 < k) ∧
  requests ≠ [] ∧
  1 ≤ totalTickets requests ∧ totalTickets requests ≤ 25 ∧
  1 ≤ adults requests ∧ infants requests ≤ adults requests

/-- The six checks of the specification's processing steps 1, 2 and 4a to
4d. -/
inductive Check where
  | accountId
  | requestShape
  | totalZero
  | totalOver25
  | adultRequired
  | infantsExceedAdults
deriving DecidableEq, Repr

/-- Whether a check of the specification fails on an input, each check taken
on its own. -/
def Check.failsOn (accountId : JSVal) (requests : List Req) : Check → Bool
  | .accountId =>
    match accountId with
    | .int k => decide (k ≤ 0)
    | .other => true
  | .requestShape =>
    requests.isEmpty || requests.any (fun r => !decide r.WellFormed)
  | .totalZero => decide (totalTickets requests = 0)
  | .totalOver25 => decide (totalTickets requests > 25)
  | .adultRequired =>
    decide ((children requests > 0 ∨ infants requests > 0) ∧
      adults requests = 0)
  | .infantsExceedAdults => decide (infants requests > adults requests)

/-- The fixed order in which the specification lists the checks. -/
def Check.order : List Check :=
  [.accountId, .requestShape, .totalZero, .totalOver25, .adultRequired,
    .infantsExceedAdults]

/-- The first check, in the specification's order, that fails on an input. -/
def firstFailing (accountId : JSVal) (requests : List Req) : Option Check :=
  Check.order.find? (Check.failsOn accountId requests)

/-- The messages an `InvalidPurchaseException` can carry for each check. -/
def Check.reasons : Check → List String
  | .accountId => ["accountId must be an integer > 0"]
  | .requestShape =>
    ["No ticket requests provided",
      "Each request must have a type and number of tickets",
      "ticket counts must be integers >= 0"]
  | .totalZero => ["At least one ticket must be purchased"]
  | .totalOver25 => ["Cannot purchase more than 25 tickets at a time"]
  | .adultRequired =>
    ["Child and Infant tickets require at least one Adult ticket"]
  | .infantsExceedAdults =>
    ["Each infant must be accompanied by an adult (infants <= adults)"]

/-- A ticket type that `#countTickets` compares equal to none of its three
literals. -/
def Unrecognized (type : String) : Prop :=
  type ≠ "ADULT" ∧ type ≠ "CHILD" ∧ type ≠ "INFANT"

/-! ## Rounding -/

theorem roundNat_small (m : Nat) (h : m < 2 ^ 53) : roundNat m = .fin m := by
  unfold roundNat
  rw [if_pos h]

theorem roundInt_small (z : Int) (h0 : 0 ≤ z) (h : z < 2 ^ 53) :
    roundInt z = .fin z := by
  have hz : z.toNat < 2 ^ 53 := by omega
  simp [roundInt, h0, roundNat_small _ hz, Int.toNat_of_nonneg h0]

/-- Halving stops at or above `2 ^ 52`. -/
theorem expOf_ge (fuel m : Nat) (h : 2 ^ 52 ≤ m) :
    2 ^ 52 ≤ m / 2 ^ expOf fuel m := by
  induction fuel generalizing m with
  | zero => simpa [expOf] using h
  | succ fuel ih =>
    unfold expOf
    split
    · simpa using h
    · have h2 : 2 ^ 52 ≤ m / 2 := by omega
      have e1 : m / 2 ^ (expOf fuel (m / 2) + 1) =
          m / 2 / 2 ^ expOf fuel (m / 2) := by
        rw [Nat.pow_succ, Nat.mul_comm, Nat.div_div_eq_div_mul]
      rw [e1]
      exact ih (m / 2) h2

/-- Halving leaves fewer than 53 bits, given enough steps. -/
theorem expOf_lt (fuel m : Nat) (h : m < 2 ^ (fuel + 53)) :
    m / 2 ^ expOf fuel m < 2 ^ 53 := by
  induction fuel generalizing m with
  | zero => simpa [expOf] using h
  | succ fuel ih =>
    unfold expOf
    split
    · simpa
    · have h2 : m / 2 < 2 ^ (fuel + 53) := by
        have : 2 ^ (fuel + 1 + 53) = 2 * 2 ^ (fuel + 53) := by ring
        omega
      have e1 : m / 2 ^ (expOf fuel (m / 2) + 1) =
          m / 2 / 2 ^ expOf fuel (m / 2) := by
        rw [Nat.pow_succ, Nat.mul_comm, Nat.div_div_eq_div_mul]
      rw [e1]
      exact ih (m / 2) h2

theorem expOf_pos (m : Nat) (h : 2 ^ 53 ≤ m) : 1 ≤ expOf m m := by
  cases m with
  | zero => simp at h
  | succ k =>
    unfold expOf
    rw [if_neg (by omega)]
    omega

/-- From `2 ^ 53` on, rounding yields `Infinity` or a value at least
`2 ^ 53`. -/
theorem roundNat_large (m : Nat) (h : 2 ^ 53 ≤ m) :
    roundNat m = .posInf ∨ ∃ x : Int, 2 ^ 53 ≤ x ∧ roundNat m = .fin x := by
  have hq : 2 ^ 52 ≤ m / 2 ^ expOf m m := expOf_ge m m (by omega)
  have he : 1 ≤ expOf m m := expOf_pos m h
  have hpow : 2 ≤ 2 ^ expOf m m := by
    calc 2 = 2 ^ 1 := by norm_num
      _ ≤ 2 ^ expOf m m := Nat.pow_le_pow_right (by norm_num) he
  unfold roundNat
  rw [if_neg (by omega)]
  simp only []
  generalize hq1def : (if 2 ^ (expOf m m - 1) < m % 2 ^ expOf m m ∨
      (m % 2 ^ expOf m m = 2 ^ (expOf m m - 1) ∧
        m / 2 ^ expOf m m % 2 = 1) then m / 2 ^ expOf m m + 1
      else m / 2 ^ expOf m m) = q1
  have hq1 : 2 ^ 52 ≤ q1 := by
    rw [← hq1def]
    split <;> omega
  by_cases hov : (2 ^ 128) ^ 8 ≤ q1 * 2 ^ expOf m m
  · rw [if_pos hov]
    exact Or.inl rfl
  · rw [if_neg hov]
    right
    refine ⟨_, ?_, rfl⟩
    have := Nat.mul_le_mul hq1 hpow
    have h53 : (2 : Nat) ^ 52 * 2 = 2 ^ 53 := by norm_num
    rw [h53] at this
    exact_mod_cast this

theorem roundInt_large (z : Int) (h : 2 ^ 53 ≤ z) :
    roundInt z = .posInf ∨ ∃ x : Int, 2 ^ 53 ≤ x ∧ roundInt z = .fin x := by
  have h0 : 0 ≤ z := by omega
  have hz : 2 ^ 53 ≤ z.toNat := by omega
  simpa [roundInt, h0] using roundNat_large z.toNat hz

/-! ## Numbers standing for exact sums -/

theorem approx_fin (n : Int) : Approx (.fin n) n := by
  by_cases h : n < 2 ^ 53
  · exact Or.inl ⟨h, rfl⟩
  · exact Or.inr ⟨by omega, Or.inr ⟨n, by omega, rfl⟩⟩

theorem approx_small (v : JSNum) (n : Int) (h : Approx v n)
    (hn : n < 2 ^ 53) : v = .fin n := by
  rcases h with h | h
  · exact h.2
  · omega

theorem approx_round (z : Int) (h0 : 0 ≤ z) : Approx (roundInt z) z := by
  by_cases h : z < 2 ^ 53
  · exact Or.inl ⟨h, roundInt_small z h0 h⟩
  · exact Or.inr ⟨by omega, roundInt_large z (by omega)⟩

/-- Adding two numbers that stand for non-negative sums yields a number that
stands for the sum of the two. -/
theorem approx_add (v w : JSNum) (n m : Int) (hv : Approx v n)
    (hw : Approx w m) (hn : 0 ≤ n) (hm : 0 ≤ m) :
    Approx (v.add w) (n + m) := by
  rcases hv with ⟨hn1, rfl⟩ | ⟨hn1, rfl | ⟨x, hx, rfl⟩⟩ <;>
    rcases hw with ⟨hm1, rfl⟩ | ⟨hm1, rfl | ⟨y, hy, rfl⟩⟩
  · exact approx_round _ (by omega)
  · exact Or.inr ⟨by omega, Or.inl rfl⟩
  · exact Or.inr ⟨by omega, roundInt_large _ (by omega)⟩
  · exact Or.inr ⟨by omega, Or.inl rfl⟩
  · exact Or.inr ⟨by omega, Or.inl rfl⟩
  · exact Or.inr ⟨by omega, Or.inl rfl⟩
  · exact Or.inr ⟨by omega, roundInt_large _ (by omega)⟩
  · exact Or.inr ⟨by omega, Or.inl rfl⟩
  · exact Or.inr ⟨by omega, roundInt_large _ (by omega)⟩

theorem approx_strictEq_zero (v : JSNum) (n : Int) (h : Approx v n) :
    v.strictEq (.fin 0) = true ↔ n = 0 := by
  rcases h with ⟨_, rfl⟩ | ⟨hn, rfl | ⟨x, hx, rfl⟩⟩
  · simp [JSNum.strictEq]
  · simp [JSNum.strictEq]; omega
  · simp [JSNum.strictEq]; omega

theorem approx_gt (v : JSNum) (n k : Int) (h : Approx v n)
    (hk : k < 2 ^ 53) : v.gt (.fin k) = true ↔ n > k := by
  rcases h with ⟨_, rfl⟩ | ⟨hn, rfl | ⟨x, hx, rfl⟩⟩
  · simp [JSNum.gt]
  · simp [JSNum.gt]; omega
  · simp [JSNum.gt]; omega

/-! ## Doubles are fixed points of rounding -/

/-- Halving `k * 2 ^ j`, with `k` of exactly 53 bits, takes `j` steps. -/
theorem expOf_mul_pow (fuel k j : Nat) (hk : 2 ^ 52 ≤ k) (hk2 : k < 2 ^ 53)
    (hj : j ≤ fuel) : expOf fuel (k * 2 ^ j) = j := by
  induction j generalizing fuel with
  | zero =>
    cases fuel with
    | zero => rfl
    | succ f =>
      unfold expOf
      rw [if_pos (by simpa using hk2)]
  | succ j ih =>
    cases fuel with
    | zero => omega
    | succ f =>
      have hpos : 0 < 2 ^ j := Nat.two_pow_pos _
      have e1 : k * 2 ^ (j + 1) = 2 * (k * 2 ^ j) := by ring
      have hbig : ¬ k * 2 ^ (j + 1) < 2 ^ 53 := by
        have : k ≤ k * 2 ^ j := Nat.le_mul_of_pos_right k hpos
        omega
      have e2 : k * 2 ^ (j + 1) / 2 = k * 2 ^ j := by omega
      unfold expOf
      rw [if_neg hbig, e2, ih f (by omega)]

/-- A number of at most 53 significant bits below the overflow threshold is
its own rounding. -/
theorem roundNat_exact (k j : Nat) (hk : 2 ^ 52 ≤ k) (hk2 : k < 2 ^ 53)
    (hov : k * 2 ^ j < (2 ^ 128) ^ 8) :
    roundNat (k * 2 ^ j) = .fin (k * 2 ^ j : Nat) := by
  cases j with
  | zero =>
    simp only [Nat.pow_zero, Nat.mul_one]
    exact roundNat_small k hk2
  | succ j =>
    have hpos : 0 < 2 ^ (j + 1) := Nat.two_pow_pos _
    have hjlt : j + 1 < 2 ^ (j + 1) := Nat.lt_two_pow (j + 1)
    have hfuel : j + 1 ≤ k * 2 ^ (j + 1) := by
      have : 1 * 2 ^ (j + 1) ≤ k * 2 ^ (j + 1) :=
        Nat.mul_le_mul_right _ (by omega)
      omega
    have he := expOf_mul_pow (k * 2 ^ (j + 1)) k (j + 1) hk hk2 hfuel
    have hbig : ¬ k * 2 ^ (j + 1) < 2 ^ 53 := by
      have e1 : k * 2 ^ (j + 1) = 2 * (k * 2 ^ j) := by ring
      have hpos2 : 0 < 2 ^ j := Nat.two_pow_pos _
      have : k ≤ k * 2 ^ j := Nat.le_mul_of_pos_right k hpos2
      omega
    have hq : k * 2 ^ (j + 1) / 2 ^ (j + 1) = k :=
      Nat.mul_div_cancel k hpos
    have hr : k * 2 ^ (j + 1) % 2 ^ (j + 1) = 0 := Nat.mul_mod_left k _
    have hhalf : 0 < 2 ^ (j + 1 - 1) := Nat.two_pow_pos _
    unfold roundNat
    rw [if_neg hbig]
    simp only [he, hq, hr]
    have hc : ¬ (2 ^ (j + 1 - 1) < 0 ∨
        (0 = 2 ^ (j + 1 - 1) ∧ k % 2 = 1)) := by
      rintro (h | ⟨h, _⟩)
      · exact Nat.not_lt_zero _ h
      · omega
    rw [if_neg hc, if_neg (Nat.not_le.2 hov)]
    push_cast
    rfl

/-- Rounding is idempotent: what it yields is a double. -/
theorem roundNat_idem (m : Nat) (w : Int) (h : roundNat m = .fin w) :
    0 ≤ w ∧ roundNat w.toNat = .fin w := by
  by_cases hs : m < 2 ^ 53
  · rw [roundNat_small m hs] at h
    cases h
    exact ⟨by omega, by simpa using roundNat_small m hs⟩
  · have hq : 2 ^ 52 ≤ m / 2 ^ expOf m m := expOf_ge m m (by omega)
    have hq2 : m / 2 ^ expOf m m < 2 ^ 53 :=
      expOf_lt m m (by
        have := Nat.lt_two_pow m
        calc m < 2 ^ m := this
          _ ≤ 2 ^ (m + 53) := Nat.pow_le_pow_right (by norm_num) (by omega))
    unfold roundNat at h
    rw [if_neg hs] at h
    simp only [] at h
    generalize hq1def : (if 2 ^ (expOf m m - 1) < m % 2 ^ expOf m m ∨
        (m % 2 ^ expOf m m = 2 ^ (expOf m m - 1) ∧
          m / 2 ^ expOf m m % 2 = 1) then m / 2 ^ expOf m m + 1
        else m / 2 ^ expOf m m) = q1 at h
    have hq1 : 2 ^ 52 ≤ q1 ∧ q1 ≤ 2 ^ 53 := by
      rw [← hq1def]
      split <;> omega
    by_cases hov : (2 ^ 128) ^ 8 ≤ q1 * 2 ^ expOf m m
    · rw [if_pos hov] at h
      cases h
    · rw [if_neg hov] at h
      cases h
      have hcast : ((q1 : Int) * 2 ^ expOf m m) =
          ((q1 * 2 ^ expOf m m : Nat) : Int) := by push_cast; rfl
      rw [hcast]
      refine ⟨by omega, ?_⟩
      rw [Int.toNat_ofNat]
      by_cases hlt : q1 < 2 ^ 53
      · exact roundNat_exact q1 _ hq1.1 hlt (by omega)
      · have e53 : q1 = 2 ^ 53 := by omega
        have e2 : q1 * 2 ^ expOf m m = 2 ^ 52 * 2 ^ (expOf m m + 1) := by
          rw [e53]; ring
        rw [e2]
        exact roundNat_exact (2 ^ 52) _ (le_refl _) (by norm_num)
          (by rw [← e2]; omega)

theorem roundInt_idem (z w : Int) (h : roundInt z = .fin w) :
    roundInt w = .fin w := by
  unfold roundInt at h
  split at h
  · obtain ⟨hw, hidem⟩ := roundNat_idem _ _ h
    simp only [roundInt, hw, if_true, hidem]
  · cases hr : roundNat (-z).toNat with
    | fin y =>
      rw [hr] at h
      simp only [JSNum.neg, JSNum.fin.injEq] at h
      obtain ⟨hy, hidem⟩ := roundNat_idem _ _ hr
      subst h
      by_cases hy0 : y = 0
      · subst hy0
        simpa [roundInt] using hidem
      · have hneg : ¬ (0 : Int) ≤ -y := by omega
        simp only [roundInt, hneg, if_false, neg_neg, hidem, JSNum.neg]
    | posInf => rw [hr] at h; simp [JSNum.neg] at h
    | negInf => rw [hr] at h; simp [JSNum.neg] at h
    | nan => rw [hr] at h; simp [JSNum.neg] at h

/-- Adding `0` to a sum of the service changes nothing. -/
theorem add_add_zero (v : JSNum) (n : Int) :
    (v.add (.fin n)).add (.fin 0) = v.add (.fin n) := by
  cases v with
  | fin x =>
    simp only [JSNum.add]
    cases hr : roundInt (x + n) with
    | fin y =>
      simp only [JSNum.add, add_zero]
      rw [← hr]
      exact (roundInt_idem _ _ hr).trans hr.symm ▸ rfl
    | posInf => rfl
    | negInf => rfl
    | nan => rfl
  | posInf => rfl
  | negInf => rfl
  | nan => rfl

/-! ## Lemmas on the private helpers -/

theorem sumOf_cons (t : String) (r : Req) (rs : List Req) :
    sumOf t (r :: rs) = Req.countOf t r + sumOf t rs := by
  simp [sumOf]

theorem countOf_nonneg (t : String) (r : Req) (h : r.WellFormed) :
    0 ≤ Req.countOf t r := by
  cases r with
  | notInstance => simp [Req.countOf]
  | ticket ty n =>
    cases n with
    | other => simp [Req.countOf]
    | int n =>
      simp only [Req.WellFormed] at h
      simp only [Req.countOf]
      split <;> omega

theorem sumOf_nonneg (t : String) (rs : List Req)
    (h : ∀ r ∈ rs, r.WellFormed) : 0 ≤ sumOf t rs := by
  induction rs with
  | nil => simp [sumOf]
  | cons r rest ih =>
    have h1 := countOf_nonneg t r (h r (List.mem_cons_self _ _))
    have h2 := ih (fun x hx => h x (List.mem_cons_of_mem _ hx))
    rw [sumOf_cons]; omega

/-- The validation loop accepts exactly the sequences of well-formed
requests. -/
theorem validateEach_ok_iff (rs : List Req) :
    validateEach rs = .ok () ↔ ∀ r ∈ rs, r.WellFormed := by
  induction rs with
  | nil => simp [validateEach]
  | cons r rest ih =>
    cases r with
    | notInstance => simp [validateEach, Req.WellFormed]
    | ticket t n =>
      cases n with
      | other => simp [validateEach, Req.WellFormed]
      | int n =>
        by_cases h : n < 0
        · simp [validateEach, Req.WellFormed, h]
        · have h0 : 0 ≤ n := by omega
          simp [validateEach, Req.WellFormed, h, h0, ih]

/-- On well-formed requests the counting loop returns running totals that
stand for the exact per-type sums added to what the totals stood for. -/
theorem countLoop_approx (rs : List Req) (h : ∀ r ∈ rs, r.WellFormed)
    (a c i : JSNum) (A C I : Int) (ha : Approx a A) (hc : Approx c C)
    (hi : Approx i I) (hA : 0 ≤ A) (hC : 0 ≤ C) (hI : 0 ≤ I) :
    ∃ counts, countLoop rs a c i = some counts ∧
      Approx counts.adultCount (A + adults rs) ∧
      Approx counts.childCount (C + children rs) ∧
      Approx counts.infantCount (I + infants rs) := by
  induction rs generalizing a c i A C I with
  | nil =>
    exact ⟨⟨a, c, i⟩, rfl, by simpa [adults, sumOf] using ha,
      by simpa [children, sumOf] using hc,
      by simpa [infants, sumOf] using hi⟩
  | cons r rest ih =>
    have hr := h r (List.mem_cons_self _ _)
    have hrest : ∀ x ∈ rest, x.WellFormed :=
      fun x hx => h x (List.mem_cons_of_mem _ hx)
    cases r with
    | notInstance => simp [Req.WellFormed] at hr
    | ticket t n =>
      cases n with
      | other => simp [Req.WellFormed] at hr
      | int n =>
        simp only [Req.WellFormed] at hr
        have step : ∀ (lit : String) (v : JSNum) (V : Int), Approx v V →
            0 ≤ V →
            Approx (if t = lit then v.add (.fin n) else v)
                (V + Req.countOf lit (.ticket t (.int n))) ∧
              0 ≤ V + Req.countOf lit (.ticket t (.int n)) := by
          intro lit v V hv hV
          simp only [Req.countOf]
          split
          · exact ⟨approx_add v (.fin n) V n hv (approx_fin n) hV hr,
              by omega⟩
          · exact ⟨by simpa using hv, by omega⟩
        obtain ⟨h1, h1n⟩ := step "ADULT" a A ha hA
        obtain ⟨h2, h2n⟩ := step "CHILD" c C hc hC
        obtain ⟨h3, h3n⟩ := step "INFANT" i I hi hI
        obtain ⟨counts, hcnt, k1, k2, k3⟩ :=
          ih hrest _ _ _ _ _ _ h1 h2 h3 h1n h2n h3n
        refine ⟨counts, by simpa only [countLoop] using hcnt, ?_, ?_, ?_⟩
        · simpa only [adults, sumOf_cons, add_assoc] using k1
        · simpa only [children, sumOf_cons, add_assoc] using k2
        · simpa only [infants, sumOf_cons, add_assoc] using k3

/-- On well-formed requests `#countTickets` returns counts that stand for the
exact per-type sums. -/
theorem countTickets_approx (rs : List Req) (h : ∀ r ∈ rs, r.WellFormed) :
    ∃ counts, countTickets rs = some counts ∧
      Approx counts.adultCount (adults rs) ∧
      Approx counts.childCount (children rs) ∧
      Approx counts.infantCount (infants rs) := by
  obtain ⟨counts, hcnt, k1, k2, k3⟩ :=
    countLoop_approx rs h (.fin 0) (.fin 0) (.fin 0) 0 0 0 (approx_fin 0)
      (approx_fin 0) (approx_fin 0) (le_refl 0) (le_refl 0) (le_refl 0)
  exact ⟨counts, hcnt, by simpa using k1, by simpa using k2,
    by simpa using k3⟩

/-- On well-formed requests whose per-type sums stay below `2 ^ 53`,
`#countTickets` returns exactly those sums. -/
theorem countTickets_wellFormed (rs : List Req) (h : ∀ r ∈ rs, r.WellFormed)
    (ha : adults rs < 2 ^ 53) (hc : children rs < 2 ^ 53)
    (hi : infants rs < 2 ^ 53) :
    countTickets rs =
      some ⟨.fin (adults rs), .fin (children rs), .fin (infants rs)⟩ := by
  obtain ⟨counts, hcnt, k1, k2, k3⟩ := countTickets_approx rs h
  rw [hcnt]
  cases counts with
  | mk a c i =>
    simp only [] at k1 k2 k3
    rw [approx_small _ _ k1 ha, approx_small _ _ k2 hc,
      approx_small _ _ k3 hi]

/-- With at most 25 seats the price is computed exactly and the defensive
check of `#calculateAmount` passes. -/
theorem calculateAmount_small (a c : Int) (ha : 0 ≤ a) (hc : 0 ≤ c)
    (h : a + c ≤ 25) :
    calculateAmount (.fin a) (.fin c) = .ok (25 * a + 15 * c) := by
  have e1 : roundInt (a * 25) = .fin (a * 25) :=
    roundInt_small _ (by omega) (by norm_num; omega)
  have e2 : roundInt (c * 15) = .fin (c * 15) :=
    roundInt_small _ (by omega) (by norm_num; omega)
  have e3 : roundInt (a * 25 + c * 15) = .fin (a * 25 + c * 15) :=
    roundInt_small _ (by omega) (by norm_num; omega)
  have e4 : a * 25 + c * 15 = 25 * a + 15 * c := by ring
  simp only [calculateAmount, JSNum.mul, JSNum.add, e1, e2, e3]
  rw [e4]

/-- With at most 25 seats the seat count is computed exactly and the
defensive check of `#calculateSeats` passes. -/
theorem calculateSeats_small (a c : Int) (ha : 0 ≤ a) (hc : 0 ≤ c)
    (h : a + c ≤ 25) :
    calculateSeats (.fin a) (.fin c) = .ok (a + c) := by
  have e1 : roundInt (a + c) = .fin (a + c) :=
    roundInt_small _ (by omega) (by norm_num; omega)
  simp only [calculateSeats, JSNum.add, e1]

/-- What the method does from the business rules on, read off the exact sums
its counts stand for. -/
theorem applyRules_eq (svc : Collaborators) (acc : JSVal) (counts : Counts)
    (A C I : Int) (ha : Approx counts.adultCount A)
    (hc : Approx counts.childCount C) (hi : Approx counts.infantCount I)
    (hA : 0 ≤ A) (hC : 0 ≤ C) (hI : 0 ≤ I) :
    applyRules svc acc counts =
      if A + C + I = 0 then
        ⟨.invalidPurchase "At least one ticket must be purchased", []⟩
      else if A + C + I > 25 then
        ⟨.invalidPurchase "Cannot purchase more than 25 tickets at a time",
          []⟩
      else if (C > 0 ∨ I > 0) ∧ A = 0 then
        ⟨.invalidPurchase
          "Child and Infant tickets require at least one Adult ticket", []⟩
      else if I > A then
        ⟨.invalidPurchase
          "Each infant must be accompanied by an adult (infants <= adults)",
          []⟩
      else callCollaborators svc acc (25 * A + 15 * C) (A + C) := by
  have ht : Approx ((counts.adultCount.add counts.childCount).add
      counts.infantCount) (A + C + I) :=
    approx_add _ _ _ _ (approx_add _ _ _ _ ha hc hA hC) hi (by omega) hI
  have hz := approx_strictEq_zero _ _ ht
  have hg := approx_gt _ _ 25 ht (by norm_num)
  unfold applyRules
  simp only []
  by_cases h0 : A + C + I = 0
  · rw [if_pos (hz.2 h0), if_pos h0]
  · rw [if_neg (fun h => h0 (hz.1 h)), if_neg h0]
    by_cases h25 : A + C + I > 25
    · rw [if_pos (hg.2 h25), if_pos h25]
    · rw [if_neg (fun h => h25 (hg.1 h)), if_neg h25]
      cases counts with
      | mk a c i =>
        simp only [] at ha hc hi ⊢
        have ea := approx_small _ _ ha (by omega)
        have ec := approx_small _ _ hc (by omega)
        have ei := approx_small _ _ hi (by omega)
        subst ea ec ei
        have h3iff : ((JSNum.fin C).gt (.fin 0) = true ∨
            (JSNum.fin I).gt (.fin 0) = true) ∧
            (JSNum.fin A).strictEq (.fin 0) = true ↔
            (C > 0 ∨ I > 0) ∧ A = 0 := by
          simp [JSNum.gt, JSNum.strictEq]
        have h4iff : (JSNum.fin I).gt (.fin A) = true ↔ I > A := by
          simp [JSNum.gt]
        by_cases h3 : (C > 0 ∨ I > 0) ∧ A = 0
        · rw [if_pos (h3iff.2 h3), if_pos h3]
        · rw [if_neg (fun h => h3 (h3iff.1 h)), if_neg h3]
          by_cases h4 : I > A
          · rw [if_pos (h4iff.2 h4), if_pos h4]
          · rw [if_neg (fun h => h4 (h4iff.1 h)), if_neg h4,
              calculateAmount_small A C hA hC (by omega),
              calculateSeats_small A C hA hC (by omega)]

/-- Once the four business rules hold of the sums, the rest of the method is
the two collaborator calls with the price and the seats. -/
theorem applyRules_of_rules (svc : Collaborators) (acc : JSVal)
    (counts : Counts) (a c i : Int) (ha : Approx counts.adultCount a)
    (hc : Approx counts.childCount c) (hi : Approx counts.infantCount i)
    (hA : 0 ≤ a) (hC : 0 ≤ c) (hI : 0 ≤ i)
    (h0 : a + c + i ≠ 0) (h25 : a + c + i ≤ 25)
    (hadult : ¬ ((c > 0 ∨ i > 0) ∧ a = 0)) (hinf : ¬ (i > a)) :
    applyRules svc acc counts =
      callCollaborators svc acc (25 * a + 15 * c) (a + c) := by
  have h25n : ¬ (a + c + i > 25) := by omega
  rw [applyRules_eq svc acc counts a c i ha hc hi hA hC hI, if_neg h0,
    if_neg h25n, if_neg hadult, if_neg hinf]

/-- If one of the four business rules fails on the sums, the method throws
`InvalidPurchaseException` with no collaborator call. -/
theorem applyRules_of_not_rules (svc : Collaborators) (acc : JSVal)
    (counts : Counts) (a c i : Int) (ha : Approx counts.adultCount a)
    (hc : Approx counts.childCount c) (hi : Approx counts.infantCount i)
    (hA : 0 ≤ a) (hC : 0 ≤ c) (hI : 0 ≤ i)
    (h : ¬ (a + c + i ≠ 0 ∧ a + c + i ≤ 25 ∧
      ¬ ((c > 0 ∨ i > 0) ∧ a = 0) ∧ ¬ (i > a))) :
    (∃ m, (applyRules svc acc counts).outcome = .invalidPurchase m) ∧
      (applyRules svc acc counts).calls = [] := by
  rw [applyRules_eq svc acc counts a c i ha hc hi hA hC hI]
  split_ifs with h1 h2 h3 h4
  · exact ⟨⟨_, rfl⟩, rfl⟩
  · exact ⟨⟨_, rfl⟩, rfl⟩
  · exact ⟨⟨_, rfl⟩, rfl⟩
  · exact ⟨⟨_, rfl⟩, rfl⟩
  · exact absurd ⟨h1, by omega, h3, h4⟩ h

/-- The run from the business rules on depends only on the exact sums the
counts stand for. -/
theorem applyRules_canon (svc : Collaborators) (acc : JSVal)
    (counts : Counts) (a c i : Int) (ha : Approx counts.adultCount a)
    (hc : Approx counts.childCount c) (hi : Approx counts.infantCount i)
    (hA : 0 ≤ a) (hC : 0 ≤ c) (hI : 0 ≤ i) :
    applyRules svc acc counts =
      applyRules svc acc ⟨.fin a, .fin c, .fin i⟩ := by
  rw [applyRules_eq svc acc counts a c i ha hc hi hA hC hI,
    applyRules_eq svc acc ⟨.fin a, .fin c, .fin i⟩ a c i (approx_fin a)
      (approx_fin c) (approx_fin i) hA hC hI]

/-- On a non-empty sequence of well-formed requests, what is left of
`purchaseTickets` is the account check followed by the business rules on the
per-type sums. -/
theorem purchaseTickets_wellFormed (svc : Collaborators) (acc : JSVal)
    (rs : List Req) (hne : rs ≠ []) (hwf : ∀ r ∈ rs, r.WellFormed) :
    purchaseTickets svc acc rs =
      match validateAccountId acc with
      | .error m => ⟨.invalidPurchase m, []⟩
      | .ok _ =>
        applyRules svc acc
          ⟨.fin (adults rs), .fin (children rs), .fin (infants rs)⟩ := by
  have hlen : ¬ rs.length = 0 := by
    simpa [List.length_eq_zero] using hne
  have hv := (validateEach_ok_iff rs).2 hwf
  obtain ⟨counts, hcnt, k1, k2, k3⟩ := countTickets_approx rs hwf
  have hcanon := applyRules_canon svc acc counts _ _ _ k1 k2 k3
    (sumOf_nonneg _ _ hwf) (sumOf_nonneg _ _ hwf) (sumOf_nonneg _ _ hwf)
  unfold purchaseTickets
  cases validateAccountId acc with
  | error m => rfl
  | ok u => simp [validateRequests, hlen, hv, hcnt, hcanon]

/-- Rule 4a fires. -/
theorem applyRules_totalZero (svc : Collaborators) (acc : JSVal) (a c i : Int)
    (hA : 0 ≤ a) (hC : 0 ≤ c) (hI : 0 ≤ i) (h0 : a + c + i = 0) :
    applyRules svc acc ⟨.fin a, .fin c, .fin i⟩ =
      ⟨.invalidPurchase "At least one ticket must be purchased", []⟩ := by
  rw [applyRules_eq svc acc _ a c i (approx_fin a) (approx_fin c)
    (approx_fin i) hA hC hI, if_pos h0]

/-- Rule 4b fires. -/
theorem applyRules_totalOver25 (svc : Collaborators) (acc : JSVal)
    (a c i : Int) (hA : 0 ≤ a) (hC : 0 ≤ c) (hI : 0 ≤ i)
    (h0 : ¬ a + c + i = 0) (h25 : a + c + i > 25) :
    applyRules svc acc ⟨.fin a, .fin c, .fin i⟩ =
      ⟨.invalidPurchase "Cannot purchase more than 25 tickets at a time",
        []⟩ := by
  rw [applyRules_eq svc acc _ a c i (approx_fin a) (approx_fin c)
    (approx_fin i) hA hC hI, if_neg h0, if_pos h25]

/-- Rule 4c fires. -/
theorem applyRules_adultRequired (svc : Collaborators) (acc : JSVal)
    (a c i : Int) (hA : 0 ≤ a) (hC : 0 ≤ c) (hI : 0 ≤ i)
    (h0 : ¬ a + c + i = 0) (h25 : ¬ a + c + i > 25)
    (h : (c > 0 ∨ i > 0) ∧ a = 0) :
    applyRules svc acc ⟨.fin a, .fin c, .fin i⟩ =
      ⟨.invalidPurchase
        "Child and Infant tickets require at least one Adult ticket", []⟩ := by
  rw [applyRules_eq svc acc _ a c i (approx_fin a) (approx_fin c)
    (approx_fin i) hA hC hI, if_neg h0, if_neg h25, if_pos h]

/-- Rule 4d fires. -/
theorem applyRules_infantsExceedAdults (svc : Collaborators) (acc : JSVal)
    (a c i : Int) (hA : 0 ≤ a) (hC : 0 ≤ c) (hI : 0 ≤ i)
    (h0 : ¬ a + c + i = 0) (h25 : ¬ a + c + i > 25)
    (h : ¬ ((c > 0 ∨ i > 0) ∧ a = 0)) (hinf : i > a) :
    applyRules svc acc ⟨.fin a, .fin c, .fin i⟩ =
      ⟨.invalidPurchase
        "Each infant must be accompanied by an adult (infants <= adults)",
        []⟩ := by
  rw [applyRules_eq svc acc _ a c i (approx_fin a) (approx_fin c)
    (approx_fin i) hA hC hI, if_neg h0, if_neg h25, if_neg h, if_pos hinf]

/-- All four rules pass. -/
theorem applyRules_pass (svc : Collaborators) (acc : JSVal) (a c i : Int)
    (hA : 0 ≤ a) (hC : 0 ≤ c) (hI : 0 ≤ i)
    (h0 : a + c + i ≠ 0) (h25 : a + c + i ≤ 25)
    (hadult : ¬ ((c > 0 ∨ i > 0) ∧ a = 0)) (hinf : ¬ (i > a)) :
    applyRules svc acc ⟨.fin a, .fin c, .fin i⟩ =
      callCollaborators svc acc (25 * a + 15 * c) (a + c) :=
  applyRules_of_rules svc acc _ a c i (approx_fin a) (approx_fin c)
    (approx_fin i) hA hC hI h0 h25 hadult hinf

/-- A request with count 0, wherever it stands, leaves the running totals of
the counting loop unchanged, provided the totals at hand are doubles. -/
theorem countLoop_insert_zero (rs1 rs2 : List Req) (t : String)
    (a c i : JSNum) (ha : a.add (.fin 0) = a) (hc : c.add (.fin 0) = c)
    (hi : i.add (.fin 0) = i) :
    countLoop (rs1 ++ .ticket t (.int 0) :: rs2) a c i =
      countLoop (rs1 ++ rs2) a c i := by
  induction rs1 generalizing a c i with
  | nil => simp only [List.nil_append, countLoop, ha, hc, hi, ite_self]
  | cons r rest ih =>
    cases r with
    | notInstance => simp [countLoop]
    | ticket t2 n2 =>
      cases n2 with
      | other => simp [countLoop]
      | int k =>
        have step : ∀ (lit : String) (v : JSNum), v.add (.fin 0) = v →
            (if t2 = lit then v.add (.fin k) else v).add (.fin 0) =
              (if t2 = lit then v.add (.fin k) else v) := by
          intro lit v hv
          split
          · exact add_add_zero v k
          · exact hv
        simp only [List.cons_append, countLoop]
        exact ih _ _ _ (step "ADULT" a ha) (step "CHILD" c hc)
          (step "INFANT" i hi)

theorem pow_pow_lt (a b n m : Nat) (h : (2 ^ a) ^ b ≤ m) (hm : m < 2 ^ n) :
    a * b < n := by
  have hlt : 2 ^ (a * b) < 2 ^ n := by
    rw [Nat.pow_mul]
    exact lt_of_le_of_lt h hm
  exact (Nat.pow_lt_pow_iff_right (by norm_num)).1 hlt

theorem pow_pow_le (a b n : Nat) (h : a * b ≤ n) : (2 ^ a) ^ b ≤ 2 ^ n := by
  rw [← Nat.pow_mul]
  exact Nat.pow_le_pow_right (by norm_num) h

/-- From `2 ^ 1024` on, rounding overflows to `Infinity`. -/
theorem roundNat_overflow (m : Nat) (h : (2 ^ 128) ^ 8 ≤ m) :
    roundNat m = .posInf := by
  have hs : ¬ m < 2 ^ 53 := by
    have h53 : (2 : Nat) ^ 53 ≤ (2 ^ 128) ^ 8 := by norm_num
    omega
  have hq : 2 ^ 52 ≤ m / 2 ^ expOf m m := expOf_ge m m (by omega)
  have hq2 : m / 2 ^ expOf m m < 2 ^ 53 :=
    expOf_lt m m (by
      have := Nat.lt_two_pow m
      calc m < 2 ^ m := this
        _ ≤ 2 ^ (m + 53) := Nat.pow_le_pow_right (by norm_num) (by omega))
  have hpos : 0 < 2 ^ expOf m m := Nat.two_pow_pos _
  have hm : m < 2 ^ (53 + expOf m m) := by
    rw [Nat.pow_add]
    exact (Nat.div_lt_iff_lt_mul hpos).1 hq2
  have hexp : 128 * 8 < 53 + expOf m m := pow_pow_lt 128 8 _ m h hm
  have hbig : ((2 : Nat) ^ 128) ^ 8 ≤ 2 ^ 52 * 2 ^ expOf m m := by
    rw [← Nat.pow_add]
    exact pow_pow_le 128 8 _ (by omega)
  clear hm hexp
  unfold roundNat
  rw [if_neg hs]
  simp only []
  generalize hq1def : (if 2 ^ (expOf m m - 1) < m % 2 ^ expOf m m ∨
      (m % 2 ^ expOf m m = 2 ^ (expOf m m - 1) ∧
        m / 2 ^ expOf m m % 2 = 1) then m / 2 ^ expOf m m + 1
      else m / 2 ^ expOf m m) = q1
  have hq1 : 2 ^ 52 ≤ q1 := by
    rw [← hq1def]
    split <;> omega
  have hle : 2 ^ 52 * 2 ^ expOf m m ≤ q1 * 2 ^ expOf m m :=
    Nat.mul_le_mul_right _ hq1
  rw [if_pos (le_trans hbig hle)]

/-- The defensive check of `#calculateAmount` is live: it fires as soon as the
adult part of the price overflows the doubles, as for `1e308` adults. -/
theorem calculateAmount_throws_on_overflow (a : Int)
    (h : (2 ^ 128) ^ 8 ≤ a * 25) :
    calculateAmount (.fin a) (.fin 0) =
      .error "calculated amount must be an integer" := by
  have h0 : (0 : Int) ≤ a * 25 := by
    have : (0 : Int) ≤ (2 ^ 128) ^ 8 := by positivity
    omega
  have hnat : (2 ^ 128) ^ 8 ≤ (a * 25).toNat := by
    have : ((a * 25).toNat : Int) = a * 25 := Int.toNat_of_nonneg h0
    exact_mod_cast this ▸ h
  have e1 : roundInt (a * 25) = .posInf := by
    unfold roundInt
    rw [if_pos h0]
    exact roundNat_overflow _ hnat
  have e2 : roundInt (0 * 15) = .fin 0 := by decide
  simp only [calculateAmount, JSNum.mul, e1, e2, JSNum.add]

/-- The defensive check of `#calculateSeats` is live: it fires as soon as the
seat count overflows the doubles. -/
theorem calculateSeats_throws_on_overflow (a c : Int)
    (h : (2 ^ 128) ^ 8 ≤ a + c) :
    calculateSeats (.fin a) (.fin c) =
      .error "calculated seats must be integer" := by
  have h0 : (0 : Int) ≤ a + c := by
    have : (0 : Int) ≤ (2 ^ 128) ^ 8 := by positivity
    omega
  have hnat : (2 ^ 128) ^ 8 ≤ (a + c).toNat := by
    have : ((a + c).toNat : Int) = a + c := Int.toNat_of_nonneg h0
    exact_mod_cast this ▸ h
  have e1 : roundInt (a + c) = .posInf := by
    unfold roundInt
    rw [if_pos h0]
    exact roundNat_overflow _ hnat
  simp only [calculateSeats, JSNum.add, e1]

/-- The shape of every run of `purchaseTickets`: either a check fails, the
method throws `InvalidPurchaseException` and no collaborator has been called,
or all checks pass and the method goes on to the two collaborator calls. -/
theorem purchaseTickets_dichotomy (svc : Collaborators) (acc : JSVal)
    (rs : List Req) :
    (¬ PassesChecks acc rs ∧
      (∃ m, (purchaseTickets svc acc rs).outcome = .invalidPurchase m) ∧
      (purchaseTickets svc acc rs).calls = []) ∨
    (PassesChecks acc rs ∧
      purchaseTickets svc acc rs =
        callCollaborators svc acc (25 * adults rs + 15 * children rs)
          (adults rs + children rs)) := by
  cases acc with
  | other =>
    left
    refine ⟨fun h => ?_, ⟨_, rfl⟩, rfl⟩
    obtain ⟨⟨k, hk, _⟩, _⟩ := h
    cases hk
  | int k =>
    by_cases hk : k ≤ 0
    · left
      refine ⟨fun h => ?_, ?_⟩
      · obtain ⟨⟨k2, hk2, hpos⟩, _⟩ := h
        cases hk2; omega
      · simp [purchaseTickets, validateAccountId, hk]
    · by_cases hne : rs = []
      · left
        refine ⟨fun h => h.2.1 hne, ?_⟩
        subst hne
        simp [purchaseTickets, validateAccountId, hk, validateRequests]
      · have hlen : ¬ rs.length = 0 := by
          simpa [List.length_eq_zero] using hne
        by_cases hwf : ∀ r ∈ rs, r.WellFormed
        · have hA : 0 ≤ adults rs := sumOf_nonneg _ _ hwf
          have hC : 0 ≤ children rs := sumOf_nonneg _ _ hwf
          have hI : 0 ≤ infants rs := sumOf_nonneg _ _ hwf
          have hrun := purchaseTickets_wellFormed svc (.int k) rs hne hwf
          simp only [validateAccountId, hk, if_false] at hrun
          rw [hrun]
          by_cases hr : adults rs + children rs + infants rs ≠ 0 ∧
              adults rs + children rs + infants rs ≤ 25 ∧
              ¬ ((children rs > 0 ∨ infants rs > 0) ∧ adults rs = 0) ∧
              ¬ (infants rs > adults rs)
          · right
            exact ⟨⟨⟨k, rfl, by omega⟩, hne, hwf, hr.1, hr.2.1, hr.2.2.1,
              hr.2.2.2⟩,
              applyRules_pass svc _ _ _ _ hA hC hI hr.1 hr.2.1 hr.2.2.1
                hr.2.2.2⟩
          · left
            exact ⟨fun h => hr ⟨h.2.2.2.1, h.2.2.2.2.1, h.2.2.2.2.2.1,
              h.2.2.2.2.2.2⟩,
              applyRules_of_not_rules svc _ _ _ _ _ (approx_fin _)
                (approx_fin _) (approx_fin _) hA hC hI hr⟩
        · left
          refine ⟨fun h => hwf h.2.2.1, ?_⟩
          cases hv : validateEach rs with
          | ok u => exact absurd ((validateEach_ok_iff rs).1 hv) hwf
          | error m =>
            simp [purchaseTickets, validateAccountId, hk, validateRequests,
              hlen, hv]

/-- The trace of the two final statements holds at most the payment call
followed by the reservation call. -/
theorem callCollaborators_calls (svc : Collaborators) (acc : JSVal)
    (amount seats : Int) :
    (svc.makePayment acc amount ≠ none ∧
      (callCollaborators svc acc amount seats).calls =
        [.makePayment acc amount]) ∨
    (svc.makePayment acc amount = none ∧
      (callCollaborators svc acc amount seats).calls =
        [.makePayment acc amount, .reserveSeat acc seats]) := by
  unfold callCollaborators
  cases hp : svc.makePayment acc amount with
  | some e => left; simp
  | none =>
    right
    cases hs : svc.reserveSeat acc seats <;> simp

/-- The two final statements end normally exactly when both collaborators
return. -/
theorem callCollaborators_returned (svc : Collaborators) (acc : JSVal)
    (amount seats : Int) :
    (callCollaborators svc acc amount seats).outcome = .returned ↔
      svc.makePayment acc amount = none ∧ svc.reserveSeat acc seats = none := by
  unfold callCollaborators
  cases hp : svc.makePayment acc amount with
  | some e => simp
  | none => cases hs : svc.reserveSeat acc seats <;> simp

/-- The two final statements never throw `InvalidPurchaseException`. -/
theorem callCollaborators_not_invalid (svc : Collaborators) (acc : JSVal)
    (amount seats : Int) (m : String) :
    (callCollaborators svc acc amount seats).outcome ≠ .invalidPurchase m := by
  unfold callCollaborators
  cases hp : svc.makePayment acc amount with
  | some e => simp
  | none => cases hs : svc.reserveSeat acc seats <;> simp

/-- Every `InvalidPurchaseException` thrown from the business rules on is
thrown before any collaborator call. -/
theorem applyRules_invalid_calls (svc : Collaborators) (acc : JSVal)
    (counts : Counts) (m : String)
    (h : (applyRules svc acc counts).outcome = .invalidPurchase m) :
    (applyRules svc acc counts).calls = [] := by
  unfold applyRules at h ⊢
  simp only [] at h ⊢
  split_ifs at h ⊢ <;> try rfl
  all_goals
    cases hA : calculateAmount counts.adultCount counts.childCount with
    | error e => rfl
    | ok amount =>
      cases hS : calculateSeats counts.adultCount counts.childCount with
      | error e => rfl
      | ok seats =>
        rw [hA, hS] at h
        exact absurd h (callCollaborators_not_invalid svc acc amount seats m)

/-! ## Pricing and seats -/

/-- C1: when the account is a strictly positive integer and the well-formed
requests pass every validation and business rule, `purchaseTickets` calls
`makePayment` exactly once, with the account and `25 * adults + 15 * children`,
the sums being those of the counts of the `ADULT` and `CHILD` requests; the
infant count does not enter the amount.  This holds whatever the collaborators
do. -/
theorem purchaseTickets_pays_price (svc : Collaborators) (accountId : JSVal)
    (requests : List Req) (h : PassesChecks accountId requests) :
    (purchaseTickets svc accountId requests).calls.filter Call.isMakePayment =
      [.makePayment accountId
        (25 * adults requests + 15 * children requests)] := by
  rcases purchaseTickets_dichotomy svc accountId requests with hbad | hgood
  · exact absurd h hbad.1
  · rw [hgood.2]
    rcases callCollaborators_calls svc accountId
      (25 * adults requests + 15 * children requests)
      (adults requests + children requests) with hc | hc
    · rw [hc.2]; rfl
    · rw [hc.2]; rfl

/-- Witness of C1: account 2 with ADULT x2, CHILD x1, INFANT x1 pays (2, 65). -/
theorem purchaseTickets_pays_price_witness :
    PassesChecks (.int 2)
      [.ticket "ADULT" (.int 2), .ticket "CHILD" (.int 1),
        .ticket "INFANT" (.int 1)] ∧
    (purchaseTickets mockCollaborators (.int 2)
      [.ticket "ADULT" (.int 2), .ticket "CHILD" (.int 1),
        .ticket "INFANT" (.int 1)]).calls.filter Call.isMakePayment =
      [.makePayment (.int 2)
        (25 * adults [.ticket "ADULT" (.int 2), .ticket "CHILD" (.int 1),
            .ticket "INFANT" (.int 1)] +
          15 * children [.ticket "ADULT" (.int 2), .ticket "CHILD" (.int 1),
            .ticket "INFANT" (.int 1)])] ∧
    25 * adults [.ticket "ADULT" (.int 2), .ticket "CHILD" (.int 1),
        .ticket "INFANT" (.int 1)] +
      15 * children [.ticket "ADULT" (.int 2), .ticket "CHILD" (.int 1),
        .ticket "INFANT" (.int 1)] = 65 :=
  have hp : PassesChecks (.int 2)
      [.ticket "ADULT" (.int 2), .ticket "CHILD" (.int 1),
        .ticket "INFANT" (.int 1)] :=
    ⟨⟨2, rfl, by decide⟩, by decide, by decide, by decide, by decide,
      by decide, by decide⟩
  ⟨hp, purchaseTickets_pays_price mockCollaborators _ _ hp, by decide⟩

/-- C2: when the account is a strictly positive integer and the well-formed
requests pass every validation and business rule, the only `reserveSeat` call
`purchaseTickets` can issue is the one with the account and
`adults + children`, infants taking no seat; and it issues that call exactly
once as soon as the payment call returns. -/
theorem purchaseTickets_reserves_seats (svc : Collaborators)
    (accountId : JSVal) (requests : List Req)
    (h : PassesChecks accountId requests) :
    (∀ c ∈ (purchaseTickets svc accountId requests).calls,
      c.isReserveSeat = true →
        c = .reserveSeat accountId (adults requests + children requests)) ∧
    (svc.makePayment accountId
        (25 * adults requests + 15 * children requests) = none →
      (purchaseTickets svc accountId requests).calls.filter
          Call.isReserveSeat =
        [.reserveSeat accountId (adults requests + children requests)]) := by
  rcases purchaseTickets_dichotomy svc accountId requests with hbad | hgood
  · exact absurd h hbad.1
  · rw [hgood.2]
    rcases callCollaborators_calls svc accountId
      (25 * adults requests + 15 * children requests)
      (adults requests + children requests) with hc | hc
    · rw [hc.2]
      refine ⟨?_, fun hp => absurd hp hc.1⟩
      intro c hmem hres
      simp only [List.mem_singleton] at hmem
      subst hmem
      simp [Call.isReserveSeat] at hres
    · rw [hc.2]
      refine ⟨?_, fun _ => rfl⟩
      intro c hmem hres
      simp only [List.mem_cons, List.mem_singleton, List.not_mem_nil,
        or_false] at hmem
      rcases hmem with hmem | hmem
      · subst hmem
        simp [Call.isReserveSeat] at hres
      · exact hmem

/-- Witness of C2: account 3 with ADULT x1, CHILD x5 reserves (3, 6). -/
theorem purchaseTickets_reserves_seats_witness :
    PassesChecks (.int 3)
      [.ticket "ADULT" (.int 1), .ticket "CHILD" (.int 5)] ∧
    mockCollaborators.makePayment (.int 3)
      (25 * adults [.ticket "ADULT" (.int 1), .ticket "CHILD" (.int 5)] +
        15 * children [.ticket "ADULT" (.int 1), .ticket "CHILD" (.int 5)]) =
      none ∧
    (purchaseTickets mockCollaborators (.int 3)
      [.ticket "ADULT" (.int 1), .ticket "CHILD" (.int 5)]).calls.filter
        Call.isReserveSeat =
      [.reserveSeat (.int 3)
        (adults [.ticket "ADULT" (.int 1), .ticket "CHILD" (.int 5)] +
          children [.ticket "ADULT" (.int 1), .ticket "CHILD" (.int 5)])] ∧
    adults [.ticket "ADULT" (.int 1), .ticket "CHILD" (.int 5)] +
      children [.ticket "ADULT" (.int 1), .ticket "CHILD" (.int 5)] = 6 :=
  have hp : PassesChecks (.int 3)
      [.ticket "ADULT" (.int 1), .ticket "CHILD" (.int 5)] :=
    ⟨⟨3, rfl, by decide⟩, by decide, by decide, by decide, by decide,
      by decide, by decide⟩
  ⟨hp, rfl,
    (purchaseTickets_reserves_seats mockCollaborators _ _ hp).2 rfl,
    by decide⟩

/-! ## Rejections -/

/-- C3: whatever the account and the requests, if the tickets requested,
summed over the `ADULT`, `CHILD` and `INFANT` requests, number 0 or more than
25, `purchaseTickets` throws `InvalidPurchaseException` and neither
`makePayment` nor `reserveSeat` is called. -/
theorem purchaseTickets_rejects_total (svc : Collaborators)
    (accountId : JSVal) (requests : List Req)
    (h : adults requests + children requests + infants requests = 0 ∨
      adults requests + children requests + infants requests > 25) :
    (purchaseTickets svc accountId requests).failsInvalidPurchase ∧
      (purchaseTickets svc accountId requests).calls = [] := by
  rcases purchaseTickets_dichotomy svc accountId requests with hbad | hgood
  · exact hbad.2
  · obtain ⟨⟨_, _, _, h0, h25, _, _⟩, _⟩ := hgood
    rcases h with h | h
    · exact absurd h h0
    · omega

/-- Witness of C3: account 6 with ADULT x26. -/
theorem purchaseTickets_rejects_total_witness :
    (adults [.ticket "ADULT" (.int 26)] + children [.ticket "ADULT" (.int 26)] +
        infants [.ticket "ADULT" (.int 26)] = 0 ∨
      adults [.ticket "ADULT" (.int 26)] + children [.ticket "ADULT" (.int 26)] +
        infants [.ticket "ADULT" (.int 26)] > 25) ∧
    (purchaseTickets mockCollaborators (.int 6)
      [.ticket "ADULT" (.int 26)]).failsInvalidPurchase ∧
    (purchaseTickets mockCollaborators (.int 6)
      [.ticket "ADULT" (.int 26)]).calls = [] :=
  ⟨by decide, purchaseTickets_rejects_total mockCollaborators (.int 6)
    [.ticket "ADULT" (.int 26)] (by decide)⟩

/-- C4: whatever the account and the requests, if there is a child or an
infant ticket and no adult ticket, `purchaseTickets` throws
`InvalidPurchaseException`. -/
theorem purchaseTickets_requires_adult (svc : Collaborators)
    (accountId : JSVal) (requests : List Req)
    (h : (children requests > 0 ∨ infants requests > 0) ∧
      adults requests = 0) :
    (purchaseTickets svc accountId requests).failsInvalidPurchase := by
  rcases purchaseTickets_dichotomy svc accountId requests with hbad | hgood
  · exact hbad.2.1
  · obtain ⟨⟨_, _, _, _, _, hadult, _⟩, _⟩ := hgood
    exact absurd h hadult

/-- Witness of C4: account 7 with CHILD x2, and account 8 with INFANT x1. -/
theorem purchaseTickets_requires_adult_witness :
    (purchaseTickets mockCollaborators (.int 7)
      [.ticket "CHILD" (.int 2)]).failsInvalidPurchase ∧
    (purchaseTickets mockCollaborators (.int 8)
      [.ticket "INFANT" (.int 1)]).failsInvalidPurchase :=
  ⟨purchaseTickets_requires_adult mockCollaborators (.int 7)
      [.ticket "CHILD" (.int 2)] (by decide),
    purchaseTickets_requires_adult mockCollaborators (.int 8)
      [.ticket "INFANT" (.int 1)] (by decide)⟩

/-- C5: whatever the account and the requests, if there are more infant
tickets than adult tickets, `purchaseTickets` throws
`InvalidPurchaseException` and calls no collaborator. -/
theorem purchaseTickets_rejects_excess_infants (svc : Collaborators)
    (accountId : JSVal) (requests : List Req)
    (h : infants requests > adults requests) :
    (purchaseTickets svc accountId requests).failsInvalidPurchase ∧
      (purchaseTickets svc accountId requests).calls = [] := by
  rcases purchaseTickets_dichotomy svc accountId requests with hbad | hgood
  · exact hbad.2
  · obtain ⟨⟨_, _, _, _, _, _, hinf⟩, _⟩ := hgood
    exact absurd h hinf

/-- Witness of C5: account 9 with ADULT x1, INFANT x2. -/
theorem purchaseTickets_rejects_excess_infants_witness :
    infants [.ticket "ADULT" (.int 1), .ticket "INFANT" (.int 2)] >
      adults [.ticket "ADULT" (.int 1), .ticket "INFANT" (.int 2)] ∧
    (purchaseTickets mockCollaborators (.int 9)
      [.ticket "ADULT" (.int 1),
        .ticket "INFANT" (.int 2)]).failsInvalidPurchase ∧
    (purchaseTickets mockCollaborators (.int 9)
      [.ticket "ADULT" (.int 1), .ticket "INFANT" (.int 2)]).calls = [] :=
  ⟨by decide, purchaseTickets_rejects_excess_infants mockCollaborators (.int 9)
    [.ticket "ADULT" (.int 1), .ticket "INFANT" (.int 2)] (by decide)⟩

/-! ## Success -/

/-- C6: as many infants as adults is allowed.  For a strictly positive integer
account and well-formed requests with `infants = adults ≥ 1` and at most 25
tickets in all, `purchaseTickets` returns normally (the collaborators
returning) after exactly the two collaborator calls, paying
`25 * adults + 15 * children` and reserving `adults + children` seats. -/
theorem purchaseTickets_allows_infants_eq_adults (svc : Collaborators)
    (k : Int) (requests : List Req) (hk : 0 < k)
    (hwf : ∀ r ∈ requests, r.WellFormed)
    (heq : infants requests = adults requests)
    (hone : 1 ≤ adults requests)
    (h25 : adults requests + children requests + infants requests ≤ 25)
    (hpay : svc.makePayment (.int k)
      (25 * adults requests + 15 * children requests) = none)
    (hseat : svc.reserveSeat (.int k)
      (adults requests + children requests) = none) :
    purchaseTickets svc (.int k) requests =
      ⟨.returned,
        [.makePayment (.int k)
            (25 * adults requests + 15 * children requests),
          .reserveSeat (.int k) (adults requests + children requests)]⟩ := by
  have hc : 0 ≤ children requests := sumOf_nonneg _ _ hwf
  have hne : requests ≠ [] := by
    intro hnil
    subst hnil
    simp [adults, sumOf] at hone
  have hp : PassesChecks (.int k) requests :=
    ⟨⟨k, rfl, hk⟩, hne, hwf, by omega, h25, by omega, by omega⟩
  rcases purchaseTickets_dichotomy svc (.int k) requests with hbad | hgood
  · exact absurd hp hbad.1
  · rw [hgood.2]
    simp [callCollaborators, hpay, hseat]

/-- Witness of C6: account 4 with ADULT x2, INFANT x2 gives
`makePayment(4, 50)` and `reserveSeat(4, 2)`. -/
theorem purchaseTickets_allows_infants_eq_adults_witness :
    purchaseTickets mockCollaborators (.int 4)
        [.ticket "ADULT" (.int 2), .ticket "INFANT" (.int 2)] =
      ⟨.returned,
        [.makePayment (.int 4)
            (25 * adults [.ticket "ADULT" (.int 2), .ticket "INFANT" (.int 2)] +
              15 * children
                [.ticket "ADULT" (.int 2), .ticket "INFANT" (.int 2)]),
          .reserveSeat (.int 4)
            (adults [.ticket "ADULT" (.int 2), .ticket "INFANT" (.int 2)] +
              children
                [.ticket "ADULT" (.int 2), .ticket "INFANT" (.int 2)])]⟩ ∧
    25 * adults [.ticket "ADULT" (.int 2), .ticket "INFANT" (.int 2)] +
      15 * children [.ticket "ADULT" (.int 2), .ticket "INFANT" (.int 2)] =
        50 ∧
    adults [.ticket "ADULT" (.int 2), .ticket "INFANT" (.int 2)] +
      children [.ticket "ADULT" (.int 2), .ticket "INFANT" (.int 2)] = 2 :=
  ⟨purchaseTickets_allows_infants_eq_adults mockCollaborators 4
      [.ticket "ADULT" (.int 2), .ticket "INFANT" (.int 2)]
      (by decide) (by decide) (by decide) (by decide) (by decide) rfl rfl,
    by decide, by decide⟩

/-- C7: whenever `purchaseTickets` returns normally, the collaborator calls
it issued are exactly one `makePayment` call followed by one `reserveSeat`
call, in that order and nothing else. -/
theorem purchaseTickets_pays_then_reserves (svc : Collaborators)
    (accountId : JSVal) (requests : List Req)
    (h : (purchaseTickets svc accountId requests).outcome = .returned) :
    (purchaseTickets svc accountId requests).calls =
      [.makePayment accountId
          (25 * adults requests + 15 * children requests),
        .reserveSeat accountId (adults requests + children requests)] := by
  rcases purchaseTickets_dichotomy svc accountId requests with hbad | hgood
  · obtain ⟨_, ⟨m, hm⟩, _⟩ := hbad
    rw [hm] at h
    cases h
  · rw [hgood.2] at h ⊢
    have hboth := (callCollaborators_returned svc accountId _ _).1 h
    rcases callCollaborators_calls svc accountId
      (25 * adults requests + 15 * children requests)
      (adults requests + children requests) with hc | hc
    · exact absurd hboth.1 hc.1
    · exact hc.2

/-- Witness of C7: account 1 with ADULT x1 returns after `makePayment(1, 25)`
then `reserveSeat(1, 1)`. -/
theorem purchaseTickets_pays_then_reserves_witness :
    (purchaseTickets mockCollaborators (.int 1)
      [.ticket "ADULT" (.int 1)]).outcome = .returned ∧
    (purchaseTickets mockCollaborators (.int 1)
      [.ticket "ADULT" (.int 1)]).calls =
      [.makePayment (.int 1)
          (25 * adults [.ticket "ADULT" (.int 1)] +
            15 * children [.ticket "ADULT" (.int 1)]),
        .reserveSeat (.int 1)
          (adults [.ticket "ADULT" (.int 1)] +
            children [.ticket "ADULT" (.int 1)])] ∧
    (purchaseTickets mockCollaborators (.int 1)
      [.ticket "ADULT" (.int 1)]).calls =
      [.makePayment (.int 1) 25, .reserveSeat (.int 1) 1] :=
  ⟨by decide,
    purchaseTickets_pays_then_reserves mockCollaborators (.int 1)
      [.ticket "ADULT" (.int 1)] (by decide),
    by decide⟩

/-! ## Failures leave no trace -/

/-- C8: if the account is not an integer, or is an integer `≤ 0`, then for
every sequence of requests, valid or not, `purchaseTickets` throws
`InvalidPurchaseException` and neither `makePayment` nor `reserveSeat` is
called. -/
theorem purchaseTickets_rejects_account (svc : Collaborators)
    (accountId : JSVal) (requests : List Req)
    (h : Number.isInteger accountId = false ∨
      ∃ k : Int, accountId = .int k ∧ k ≤ 0) :
    (purchaseTickets svc accountId requests).failsInvalidPurchase ∧
      (purchaseTickets svc accountId requests).calls = [] := by
  rcases purchaseTickets_dichotomy svc accountId requests with hbad | hgood
  · exact hbad.2
  · obtain ⟨⟨⟨k, hk, hpos⟩, _⟩, _⟩ := hgood
    subst hk
    rcases h with h | ⟨k2, hk2, hle⟩
    · simp [Number.isInteger] at h
    · cases hk2
      omega

/-- Witness of C8: account 0 with ADULT x1, and a non-integer account. -/
theorem purchaseTickets_rejects_account_witness :
    ((purchaseTickets mockCollaborators (.int 0)
        [.ticket "ADULT" (.int 1)]).failsInvalidPurchase ∧
      (purchaseTickets mockCollaborators (.int 0)
        [.ticket "ADULT" (.int 1)]).calls = []) ∧
    ((purchaseTickets mockCollaborators .other
        [.ticket "ADULT" (.int 1)]).failsInvalidPurchase ∧
      (purchaseTickets mockCollaborators .other
        [.ticket "ADULT" (.int 1)]).calls = []) :=
  ⟨purchaseTickets_rejects_account mockCollaborators (.int 0)
      [.ticket "ADULT" (.int 1)] (Or.inr ⟨0, rfl, by decide⟩),
    purchaseTickets_rejects_account mockCollaborators .other
      [.ticket "ADULT" (.int 1)] (Or.inl rfl)⟩

/-- C9: validation failures are atomic.  For every account and every sequence
of requests, if `purchaseTickets` throws `InvalidPurchaseException`, whichever
check raised it, then no collaborator call has been made: the trace of
`makePayment` and `reserveSeat` calls is empty. -/
theorem purchaseTickets_invalid_no_calls (svc : Collaborators)
    (accountId : JSVal) (requests : List Req)
    (h : (purchaseTickets svc accountId requests).failsInvalidPurchase) :
    (purchaseTickets svc accountId requests).calls = [] := by
  rcases purchaseTickets_dichotomy svc accountId requests with hbad | hgood
  · exact hbad.2.2
  · obtain ⟨m, hm⟩ := h
    rw [hgood.2] at hm
    exact absurd hm (callCollaborators_not_invalid svc accountId _ _ m)

/-- Witness of C9: account 1 with a request that is not a `TicketTypeRequest`
instance. -/
theorem purchaseTickets_invalid_no_calls_witness :
    (purchaseTickets mockCollaborators (.int 1)
      [.notInstance]).failsInvalidPurchase ∧
    (purchaseTickets mockCollaborators (.int 1) [.notInstance]).calls = [] :=
  have hf : (purchaseTickets mockCollaborators (.int 1)
      [.notInstance]).failsInvalidPurchase :=
    ⟨"Each request must have a type and number of tickets", by decide⟩
  ⟨hf, purchaseTickets_invalid_no_calls mockCollaborators (.int 1)
    [.notInstance] hf⟩

/-- C10: for every account, `purchaseTickets` called with no ticket request at
all throws `InvalidPurchaseException` and calls no collaborator. -/
theorem purchaseTickets_rejects_no_requests (svc : Collaborators)
    (accountId : JSVal) :
    (purchaseTickets svc accountId []).failsInvalidPurchase ∧
      (purchaseTickets svc accountId []).calls = [] := by
  rcases purchaseTickets_dichotomy svc accountId [] with hbad | hgood
  · exact hbad.2
  · exact absurd rfl hgood.1.2.1

/-! ## Further lemmas -/

theorem sumOf_append (t : String) (rs1 rs2 : List Req) :
    sumOf t (rs1 ++ rs2) = sumOf t rs1 + sumOf t rs2 := by
  simp [sumOf]

theorem sumOf_perm (t : String) (rs1 rs2 : List Req) (h : rs1.Perm rs2) :
    sumOf t rs1 = sumOf t rs2 := by
  induction h with
  | nil => rfl
  | cons x _ ih => rw [sumOf_cons, sumOf_cons, ih]
  | swap x y l => rw [sumOf_cons, sumOf_cons, sumOf_cons, sumOf_cons]; omega
  | trans _ _ ih1 ih2 => rw [ih1, ih2]

/-- A rejected element makes the validation loop throw one of its two
messages. -/
theorem validateEach_error_reason (rs : List Req) (m : String)
    (h : validateEach rs = .error m) :
    m = "Each request must have a type and number of tickets" ∨
      m = "ticket counts must be integers >= 0" := by
  induction rs with
  | nil => simp [validateEach] at h
  | cons r rest ih =>
    cases r with
    | notInstance =>
      simp only [validateEach, Except.error.injEq] at h
      exact Or.inl h.symm
    | ticket t n =>
      cases n with
      | other =>
        simp only [validateEach, Except.error.injEq] at h
        exact Or.inr h.symm
      | int n =>
        simp only [validateEach] at h
        split at h
        · simp only [Except.error.injEq] at h
          exact Or.inr h.symm
        · exact ih h

/-- The sequence fails the request-shape check exactly when it is empty or
holds an element that is not well formed. -/
theorem requestShape_failsOn (acc : JSVal) (rs : List Req) :
    Check.failsOn acc rs .requestShape = false ↔
      rs ≠ [] ∧ ∀ r ∈ rs, r.WellFormed := by
  cases rs with
  | nil => simp [Check.failsOn]
  | cons r rest => simp [Check.failsOn]

/-- Refinement of the specification's ordered checks by the code: when some
check fails, `purchaseTickets` throws `InvalidPurchaseException` with a
message of the first failing check and calls no collaborator; when none
fails, it goes on to the two collaborator calls. -/
theorem purchaseTickets_firstFailing (svc : Collaborators) (acc : JSVal)
    (rs : List Req) :
    (∀ c, firstFailing acc rs = some c →
      ∃ m ∈ c.reasons, purchaseTickets svc acc rs = ⟨.invalidPurchase m, []⟩) ∧
    (firstFailing acc rs = none →
      purchaseTickets svc acc rs =
        callCollaborators svc acc (25 * adults rs + 15 * children rs)
          (adults rs + children rs)) := by
  by_cases h1 : Check.failsOn acc rs .accountId = true
  · have hff : firstFailing acc rs = some .accountId := by
      simp [firstFailing, Check.order, List.find?, h1]
    rw [hff]
    refine ⟨fun c hc => ?_, fun hn => by cases hn⟩
    cases hc
    refine ⟨_, List.mem_singleton.2 rfl, ?_⟩
    cases acc with
    | other => rfl
    | int k =>
      have hk : k ≤ 0 := by simpa [Check.failsOn] using h1
      simp [purchaseTickets, validateAccountId, hk]
  · have h1f : Check.failsOn acc rs .accountId = false := by simpa using h1
    have hacc : validateAccountId acc = .ok () := by
      cases acc with
      | other => simp [Check.failsOn] at h1
      | int k =>
        have hk : ¬ k ≤ 0 := by simpa [Check.failsOn] using h1
        simp [validateAccountId, hk]
    by_cases h2 : Check.failsOn acc rs .requestShape = true
    · have hff : firstFailing acc rs = some .requestShape := by
        simp [firstFailing, Check.order, List.find?, h1f, h2]
      rw [hff]
      refine ⟨fun c hc => ?_, fun hn => by cases hn⟩
      cases hc
      by_cases hne : rs = []
      · subst hne
        refine ⟨"No ticket requests provided", by simp [Check.reasons], ?_⟩
        simp [purchaseTickets, hacc, validateRequests]
      · have hlen : ¬ rs.length = 0 := by
          simpa [List.length_eq_zero] using hne
        cases hv : validateEach rs with
        | ok u =>
          have hwf := (validateEach_ok_iff rs).1 hv
          have := (requestShape_failsOn acc rs).2 ⟨hne, hwf⟩
          rw [this] at h2
          cases h2
        | error m =>
          refine ⟨m, ?_, ?_⟩
          · rcases validateEach_error_reason rs m hv with hm | hm <;>
              simp [Check.reasons, hm]
          · simp [purchaseTickets, hacc, validateRequests, hlen, hv]
    · have h2f : Check.failsOn acc rs .requestShape = false := by
        simpa using h2
      obtain ⟨hne, hwf⟩ := (requestShape_failsOn acc rs).1 h2f
      have hA : 0 ≤ adults rs := sumOf_nonneg _ _ hwf
      have hC : 0 ≤ children rs := sumOf_nonneg _ _ hwf
      have hI : 0 ≤ infants rs := sumOf_nonneg _ _ hwf
      have hrun := purchaseTickets_wellFormed svc acc rs hne hwf
      rw [hacc] at hrun
      simp only [] at hrun
      rw [hrun]
      by_cases h3 : adults rs + children rs + infants rs = 0
      · have h3f : Check.failsOn acc rs .totalZero = true := by
          simp [Check.failsOn, totalTickets, h3]
        have hff : firstFailing acc rs = some .totalZero := by
          simp [firstFailing, Check.order, List.find?, h1f, h2f, h3f]
        rw [hff]
        refine ⟨fun c hc => ?_, fun hn => by cases hn⟩
        cases hc
        exact ⟨_, List.mem_singleton.2 rfl,
          applyRules_totalZero svc acc _ _ _ hA hC hI h3⟩
      · have h3f : Check.failsOn acc rs .totalZero = false := by
          simp [Check.failsOn, totalTickets, h3]
        by_cases h4 : adults rs + children rs + infants rs > 25
        · have h4f : Check.failsOn acc rs .totalOver25 = true := by
            simp only [Check.failsOn, totalTickets]
            exact decide_eq_true h4
          have hff : firstFailing acc rs = some .totalOver25 := by
            simp [firstFailing, Check.order, List.find?, h1f, h2f, h3f, h4f]
          rw [hff]
          refine ⟨fun c hc => ?_, fun hn => by cases hn⟩
          cases hc
          exact ⟨_, List.mem_singleton.2 rfl,
            applyRules_totalOver25 svc acc _ _ _ hA hC hI h3 h4⟩
        · have h4f : Check.failsOn acc rs .totalOver25 = false := by
            simp only [Check.failsOn, totalTickets]
            exact decide_eq_false h4
          by_cases h5 : (children rs > 0 ∨ infants rs > 0) ∧ adults rs = 0
          · have h5f : Check.failsOn acc rs .adultRequired = true := by
              simp only [Check.failsOn]
              exact decide_eq_true h5
            have hff : firstFailing acc rs = some .adultRequired := by
              simp [firstFailing, Check.order, List.find?, h1f, h2f, h3f,
                h4f, h5f]
            rw [hff]
            refine ⟨fun c hc => ?_, fun hn => by cases hn⟩
            cases hc
            exact ⟨_, List.mem_singleton.2 rfl,
              applyRules_adultRequired svc acc _ _ _ hA hC hI h3 h4 h5⟩
          · have h5f : Check.failsOn acc rs .adultRequired = false := by
              simp only [Check.failsOn]
              exact decide_eq_false h5
            by_cases h6 : infants rs > adults rs
            · have h6f : Check.failsOn acc rs .infantsExceedAdults = true := by
                simp only [Check.failsOn]
                exact decide_eq_true h6
              have hff : firstFailing acc rs = some .infantsExceedAdults := by
                simp [firstFailing, Check.order, List.find?, h1f, h2f, h3f,
                  h4f, h5f, h6f]
              rw [hff]
              refine ⟨fun c hc => ?_, fun hn => by cases hn⟩
              cases hc
              exact ⟨_, List.mem_singleton.2 rfl,
                applyRules_infantsExceedAdults svc acc _ _ _ hA hC hI h3 h4
                  h5 h6⟩
            · have h6f : Check.failsOn acc rs .infantsExceedAdults = false := by
                simp only [Check.failsOn]
                exact decide_eq_false h6
              have hff : firstFailing acc rs = none := by
                simp [firstFailing, Check.order, List.find?, h1f, h2f, h3f,
                  h4f, h5f, h6f]
              rw [hff]
              refine ⟨fun c hc => (by cases hc), fun _ => ?_⟩
              exact applyRules_pass svc acc _ _ _ hA hC hI h3 (by omega) h5
                h6

/-- What the checks imply for the three sums. -/
theorem passesChecks_bounds (acc : JSVal) (rs : List Req)
    (h : PassesChecks acc rs) :
    1 ≤ adults rs ∧ 0 ≤ children rs ∧ 0 ≤ infants rs ∧
      infants rs ≤ adults rs ∧
      adults rs + children rs + infants rs ≤ 25 := by
  obtain ⟨_, _, hwf, h0, h25, hadult, hinf⟩ := h
  have ha : 0 ≤ adults rs := sumOf_nonneg _ _ hwf
  have hc : 0 ≤ children rs := sumOf_nonneg _ _ hwf
  have hi : 0 ≤ infants rs := sumOf_nonneg _ _ hwf
  refine ⟨?_, hc, hi, by omega, h25⟩
  by_contra hlt
  have ha0 : adults rs = 0 := by omega
  exact hadult ⟨by omega, ha0⟩

/-- On well-formed requests the checks of the code and the acceptance
condition of the specification coincide. -/
theorem passesChecks_iff_accepts (acc : JSVal) (rs : List Req)
    (hwf : ∀ r ∈ rs, r.WellFormed) : PassesChecks acc rs ↔ Accepts acc rs := by
  have hc : 0 ≤ children rs := sumOf_nonneg _ _ hwf
  have hi : 0 ≤ infants rs := sumOf_nonneg _ _ hwf
  constructor
  · intro h
    have hb := passesChecks_bounds acc rs h
    obtain ⟨hacc, hne, _, _, _, _, _⟩ := h
    refine ⟨hacc, hne, ?_, ?_, hb.1, hb.2.2.2.1⟩
    · simp only [totalTickets]; omega
    · simp only [totalTickets]; omega
  · rintro ⟨hacc, hne, h1, h25, ha, hinf⟩
    simp only [totalTickets] at h1 h25
    exact ⟨hacc, hne, hwf, by omega, h25, by omega, by omega⟩

/-- A well-formed request inserted anywhere leaves the verdict of the
validation loop unchanged. -/
theorem validateEach_insert (rs1 rs2 : List Req) (t : String) (n : Int)
    (hn : 0 ≤ n) :
    validateEach (rs1 ++ .ticket t (.int n) :: rs2) =
      validateEach (rs1 ++ rs2) := by
  induction rs1 with
  | nil =>
    have hlt : ¬ n < 0 := by omega
    simp [validateEach, hlt]
  | cons r rest ih =>
    cases r with
    | notInstance => simp [validateEach]
    | ticket t2 n2 =>
      cases n2 with
      | other => simp [validateEach]
      | int k =>
        by_cases hk : k < 0
        · simp [validateEach, hk]
        · simp [validateEach, hk, ih]

/-- A request of unrecognized type inserted anywhere leaves the running totals
of the counting loop unchanged. -/
theorem countLoop_insert (rs1 rs2 : List Req) (t : String) (n : Int)
    (ht : Unrecognized t) (a c i : JSNum) :
    countLoop (rs1 ++ .ticket t (.int n) :: rs2) a c i =
      countLoop (rs1 ++ rs2) a c i := by
  induction rs1 generalizing a c i with
  | nil =>
    obtain ⟨h1, h2, h3⟩ := ht
    simp [countLoop, h1, h2, h3]
  | cons r rest ih =>
    cases r with
    | notInstance => simp [countLoop]
    | ticket t2 n2 =>
      cases n2 with
      | other => simp [countLoop]
      | int k =>
        simp only [List.cons_append, countLoop]
        exact ih _ _ _

/-- A request of unrecognized type inserted anywhere in a non-empty sequence
leaves the whole run unchanged. -/
theorem purchaseTickets_insert (svc : Collaborators) (acc : JSVal)
    (rs1 rs2 : List Req) (t : String) (n : Int) (ht : Unrecognized t)
    (hn : 0 ≤ n) (hne : rs1 ++ rs2 ≠ []) :
    purchaseTickets svc acc (rs1 ++ .ticket t (.int n) :: rs2) =
      purchaseTickets svc acc (rs1 ++ rs2) := by
  have hlen1 : ¬ (rs1 ++ .ticket t (.int n) :: rs2).length = 0 := by simp
  have hlen2 : ¬ (rs1 ++ rs2).length = 0 := by
    simpa [List.length_eq_zero] using hne
  have hv : validateRequests (rs1 ++ .ticket t (.int n) :: rs2) =
      validateRequests (rs1 ++ rs2) := by
    unfold validateRequests
    rw [if_neg hlen1, if_neg hlen2, validateEach_insert rs1 rs2 t n hn]
  have hc : countTickets (rs1 ++ .ticket t (.int n) :: rs2) =
      countTickets (rs1 ++ rs2) :=
    countLoop_insert rs1 rs2 t n ht (.fin 0) (.fin 0) (.fin 0)
  unfold purchaseTickets
  rw [hv, hc]

/-! ## Malformed requests and collaborator failures -/

/-- C11: a sequence holding an element that is not a well-formed ticket
request (not a `TicketTypeRequest` instance, or a count that is not an integer
`≥ 0`, a negative one for example) makes `purchaseTickets` throw
`InvalidPurchaseException` without any collaborator call, whatever stands
before and after that element; this holds for every account, valid ones
included. -/
theorem purchaseTickets_rejects_malformed (svc : Collaborators)
    (accountId : JSVal) (before after : List Req) (bad : Req)
    (hbad : ¬ bad.WellFormed) :
    (purchaseTickets svc accountId
        (before ++ bad :: after)).failsInvalidPurchase ∧
      (purchaseTickets svc accountId (before ++ bad :: after)).calls = [] := by
  rcases purchaseTickets_dichotomy svc accountId (before ++ bad :: after)
    with hbadrun | hgood
  · exact hbadrun.2
  · exact absurd (hgood.1.2.2.1 bad (by simp)) hbad

/-- Witness of C11: account 1 with a plain object in place of a request, and
account 1 with a negative count after a good request. -/
theorem purchaseTickets_rejects_malformed_witness :
    ((purchaseTickets mockCollaborators (.int 1)
        ([] ++ .notInstance :: [])).failsInvalidPurchase ∧
      (purchaseTickets mockCollaborators (.int 1)
        ([] ++ .notInstance :: [])).calls = []) ∧
    ((purchaseTickets mockCollaborators (.int 1)
        ([.ticket "ADULT" (.int 1)] ++
          .ticket "CHILD" (.int (-1)) :: [])).failsInvalidPurchase ∧
      (purchaseTickets mockCollaborators (.int 1)
        ([.ticket "ADULT" (.int 1)] ++
          .ticket "CHILD" (.int (-1)) :: [])).calls = []) :=
  ⟨purchaseTickets_rejects_malformed mockCollaborators (.int 1) []
      [] .notInstance (by decide),
    purchaseTickets_rejects_malformed mockCollaborators (.int 1)
      [.ticket "ADULT" (.int 1)] [] (.ticket "CHILD" (.int (-1)))
      (by decide)⟩

/-- C12: collaborator failures propagate unchanged.  On an input that passes
all checks, if `makePayment` throws `e` then `purchaseTickets` ends with the
same `e` after that single call, `reserveSeat` not being invoked; if
`makePayment` returns and `reserveSeat` throws `e` then `purchaseTickets` ends
with the same `e`, the trace being the one payment call and the one
reservation call, with no compensating call. -/
theorem purchaseTickets_propagates_collaborator_failure (svc : Collaborators)
    (accountId : JSVal) (requests : List Req)
    (h : PassesChecks accountId requests) :
    (∀ e, svc.makePayment accountId
        (25 * adults requests + 15 * children requests) = some e →
      purchaseTickets svc accountId requests =
        ⟨.collaboratorFailure e,
          [.makePayment accountId
            (25 * adults requests + 15 * children requests)]⟩) ∧
    (∀ e, svc.makePayment accountId
        (25 * adults requests + 15 * children requests) = none →
      svc.reserveSeat accountId (adults requests + children requests) =
        some e →
      purchaseTickets svc accountId requests =
        ⟨.collaboratorFailure e,
          [.makePayment accountId
              (25 * adults requests + 15 * children requests),
            .reserveSeat accountId
              (adults requests + children requests)]⟩) := by
  rcases purchaseTickets_dichotomy svc accountId requests with hbad | hgood
  · exact absurd h hbad.1
  · rw [hgood.2]
    constructor
    · intro e hp
      simp [callCollaborators, hp]
    · intro e hp hs
      simp [callCollaborators, hp, hs]

/-- Witness of C12: account 1 with ADULT x1, against a payment service that
throws and against a seat service that throws. -/
theorem purchaseTickets_propagates_collaborator_failure_witness :
    purchaseTickets decliningPayment (.int 1) [.ticket "ADULT" (.int 1)] =
      ⟨.collaboratorFailure "payment declined",
        [.makePayment (.int 1)
          (25 * adults [.ticket "ADULT" (.int 1)] +
            15 * children [.ticket "ADULT" (.int 1)])]⟩ ∧
    purchaseTickets fullHouse (.int 1) [.ticket "ADULT" (.int 1)] =
      ⟨.collaboratorFailure "no seat left",
        [.makePayment (.int 1)
            (25 * adults [.ticket "ADULT" (.int 1)] +
              15 * children [.ticket "ADULT" (.int 1)]),
          .reserveSeat (.int 1)
            (adults [.ticket "ADULT" (.int 1)] +
              children [.ticket "ADULT" (.int 1)])]⟩ :=
  have hp : PassesChecks (.int 1) [.ticket "ADULT" (.int 1)] :=
    ⟨⟨1, rfl, by decide⟩, by decide, by decide, by decide, by decide,
      by decide, by decide⟩
  ⟨(purchaseTickets_propagates_collaborator_failure decliningPayment _ _
      hp).1 "payment declined" rfl,
    (purchaseTickets_propagates_collaborator_failure fullHouse _ _
      hp).2 "no seat left" rfl rfl⟩

/-! ## Order and grouping of the requests -/

/-- C13: the run depends only on the account and the three sums.  For two
non-empty sequences of well-formed requests with the same adult, child and
infant sums, in particular for two permutations of one another, the two runs
of `purchaseTickets` are equal: either both throw `InvalidPurchaseException`,
or both go on to the collaborator calls with the same arguments. -/
theorem purchaseTickets_depends_on_counts_only (svc : Collaborators)
    (accountId : JSVal) (rs1 rs2 : List Req)
    (hne1 : rs1 ≠ []) (hne2 : rs2 ≠ [])
    (hwf1 : ∀ r ∈ rs1, r.WellFormed) (hwf2 : ∀ r ∈ rs2, r.WellFormed)
    (h : (adults rs1 = adults rs2 ∧ children rs1 = children rs2 ∧
        infants rs1 = infants rs2) ∨ rs1.Perm rs2) :
    purchaseTickets svc accountId rs1 = purchaseTickets svc accountId rs2 ∧
    (((purchaseTickets svc accountId rs1).failsInvalidPurchase ∧
        (purchaseTickets svc accountId rs2).failsInvalidPurchase) ∨
      (purchaseTickets svc accountId rs1 =
          callCollaborators svc accountId
            (25 * adults rs1 + 15 * children rs1)
            (adults rs1 + children rs1) ∧
        purchaseTickets svc accountId rs2 =
          callCollaborators svc accountId
            (25 * adults rs1 + 15 * children rs1)
            (adults rs1 + children rs1))) := by
  have hsums : adults rs1 = adults rs2 ∧ children rs1 = children rs2 ∧
      infants rs1 = infants rs2 := by
    rcases h with h | h
    · exact h
    · exact ⟨sumOf_perm _ _ _ h, sumOf_perm _ _ _ h, sumOf_perm _ _ _ h⟩
  have heq : purchaseTickets svc accountId rs1 =
      purchaseTickets svc accountId rs2 := by
    rw [purchaseTickets_wellFormed svc accountId rs1 hne1 hwf1,
      purchaseTickets_wellFormed svc accountId rs2 hne2 hwf2,
      hsums.1, hsums.2.1, hsums.2.2]
  refine ⟨heq, ?_⟩
  rcases purchaseTickets_dichotomy svc accountId rs1 with hbad | hgood
  · left
    refine ⟨hbad.2.1, ?_⟩
    rw [← heq]
    exact hbad.2.1
  · right
    refine ⟨hgood.2, ?_⟩
    rw [← heq]
    exact hgood.2

/-- Witness of C13: account 1 with ADULT x1, ADULT x2, CHILD x1 against
CHILD x1, ADULT x3. -/
theorem purchaseTickets_depends_on_counts_only_witness :
    purchaseTickets mockCollaborators (.int 1)
        [.ticket "ADULT" (.int 1), .ticket "ADULT" (.int 2),
          .ticket "CHILD" (.int 1)] =
      purchaseTickets mockCollaborators (.int 1)
        [.ticket "CHILD" (.int 1), .ticket "ADULT" (.int 3)] :=
  (purchaseTickets_depends_on_counts_only mockCollaborators (.int 1)
    [.ticket "ADULT" (.int 1), .ticket "ADULT" (.int 2),
      .ticket "CHILD" (.int 1)]
    [.ticket "CHILD" (.int 1), .ticket "ADULT" (.int 3)]
    (by decide) (by decide) (by decide) (by decide)
    (Or.inl (by decide))).1

/-! ## Acceptance condition and order of the checks -/

/-- C14: exact acceptance condition.  For every account and every sequence of
well-formed requests, the collaborators returning, `purchaseTickets` returns
normally after both collaborator calls if and only if the account is a
strictly positive integer, the sequence is non-empty, the tickets number
between 1 and 25, there is at least one adult and no more infants than adults;
in every other case it throws `InvalidPurchaseException` and calls no
collaborator. -/
theorem purchaseTickets_succeeds_iff (svc : Collaborators)
    (accountId : JSVal) (requests : List Req)
    (hwf : ∀ r ∈ requests, r.WellFormed)
    (hpay : svc.makePayment accountId
      (25 * adults requests + 15 * children requests) = none)
    (hseat : svc.reserveSeat accountId
      (adults requests + children requests) = none) :
    (purchaseTickets svc accountId requests =
        ⟨.returned,
          [.makePayment accountId
              (25 * adults requests + 15 * children requests),
            .reserveSeat accountId (adults requests + children requests)]⟩ ↔
      Accepts accountId requests) ∧
    (¬ Accepts accountId requests →
      (purchaseTickets svc accountId requests).failsInvalidPurchase ∧
        (purchaseTickets svc accountId requests).calls = []) := by
  have hiff := passesChecks_iff_accepts accountId requests hwf
  rcases purchaseTickets_dichotomy svc accountId requests with hbad | hgood
  · obtain ⟨hnp, ⟨m, hm⟩, hcalls⟩ := hbad
    have hna : ¬ Accepts accountId requests := fun ha => hnp (hiff.2 ha)
    refine ⟨⟨fun hrun => ?_, fun ha => absurd ha hna⟩,
      fun _ => ⟨⟨m, hm⟩, hcalls⟩⟩
    rw [hrun] at hm
    cases hm
  · have ha : Accepts accountId requests := hiff.1 hgood.1
    refine ⟨⟨fun _ => ha, fun _ => ?_⟩, fun hna => absurd ha hna⟩
    rw [hgood.2]
    simp [callCollaborators, hpay, hseat]

/-- Witness of C14: 25 adult tickets are accepted, 26 are rejected. -/
theorem purchaseTickets_succeeds_iff_witness :
    purchaseTickets mockCollaborators (.int 1) [.ticket "ADULT" (.int 25)] =
      ⟨.returned,
        [.makePayment (.int 1)
            (25 * adults [.ticket "ADULT" (.int 25)] +
              15 * children [.ticket "ADULT" (.int 25)]),
          .reserveSeat (.int 1)
            (adults [.ticket "ADULT" (.int 25)] +
              children [.ticket "ADULT" (.int 25)])]⟩ ∧
    ((purchaseTickets mockCollaborators (.int 1)
        [.ticket "ADULT" (.int 26)]).failsInvalidPurchase ∧
      (purchaseTickets mockCollaborators (.int 1)
        [.ticket "ADULT" (.int 26)]).calls = []) :=
  ⟨(purchaseTickets_succeeds_iff mockCollaborators (.int 1)
      [.ticket "ADULT" (.int 25)] (by decide) rfl rfl).1.2
      ⟨⟨1, rfl, by decide⟩, by decide, by decide, by decide, by decide,
        by decide⟩,
    (purchaseTickets_succeeds_iff mockCollaborators (.int 1)
      [.ticket "ADULT" (.int 26)] (by decide) rfl rfl).2
      (fun ha => absurd ha.2.2.2.1 (by decide))⟩

/-- C15: fail-fast order of the checks.  `purchaseTickets` throws
`InvalidPurchaseException` exactly when one of the six checks (account,
request shape, no ticket, more than 25 tickets, child or infant without adult,
infants above adults) fails; the message it carries is then one of the first
failing check in that order, no collaborator is called, and messages of
different checks are different. -/
theorem purchaseTickets_reports_first_failing_check (svc : Collaborators)
    (accountId : JSVal) (requests : List Req) :
    ((purchaseTickets svc accountId requests).failsInvalidPurchase ↔
      (firstFailing accountId requests).isSome = true) ∧
    (∀ c, firstFailing accountId requests = some c →
      ∃ m ∈ c.reasons,
        purchaseTickets svc accountId requests = ⟨.invalidPurchase m, []⟩) ∧
    (∀ c1 c2 : Check, c1 ≠ c2 → ∀ m ∈ c1.reasons, m ∉ c2.reasons) := by
  have hff := purchaseTickets_firstFailing svc accountId requests
  refine ⟨?_, hff.1, ?_⟩
  · cases hc : firstFailing accountId requests with
    | none =>
      simp only [Option.isSome_none, Bool.false_eq_true, iff_false]
      rintro ⟨m, hm⟩
      rw [hff.2 hc] at hm
      exact callCollaborators_not_invalid svc accountId _ _ m hm
    | some c =>
      simp only [Option.isSome_some, iff_true]
      obtain ⟨m, _, hm⟩ := hff.1 c hc
      exact ⟨m, by rw [hm]⟩
  · intro c1 c2 hne m h1 h2
    cases c1 <;> cases c2 <;>
      simp only [Check.reasons, List.mem_cons, List.mem_singleton,
        List.not_mem_nil, or_false] at h1 h2 <;>
      first
        | exact hne rfl
        | (rcases h1 with h1 | h1 | h1 <;> subst h1 <;> simp at h2)
        | (subst h1; simp at h2)

/-- Witness of C15: an invalid account with no request reports the account
message; CHILD x26 without adult reports the more-than-25 message; INFANT x1
without adult reports the adult-required message. -/
theorem purchaseTickets_reports_first_failing_check_witness :
    (∃ m ∈ Check.reasons .accountId,
      purchaseTickets mockCollaborators (.int 0) [] =
        ⟨.invalidPurchase m, []⟩) ∧
    (∃ m ∈ Check.reasons .totalOver25,
      purchaseTickets mockCollaborators (.int 1)
          [.ticket "CHILD" (.int 26)] =
        ⟨.invalidPurchase m, []⟩) ∧
    (∃ m ∈ Check.reasons .adultRequired,
      purchaseTickets mockCollaborators (.int 1)
          [.ticket "INFANT" (.int 1)] =
        ⟨.invalidPurchase m, []⟩) :=
  ⟨(purchaseTickets_reports_first_failing_check mockCollaborators (.int 0)
      []).2.1 .accountId (by decide),
    (purchaseTickets_reports_first_failing_check mockCollaborators (.int 1)
      [.ticket "CHILD" (.int 26)]).2.1 .totalOver25 (by decide),
    (purchaseTickets_reports_first_failing_check mockCollaborators (.int 1)
      [.ticket "INFANT" (.int 1)]).2.1 .adultRequired (by decide)⟩

/-! ## Aggregation -/

/-- C16 fails as stated: the sums are added in double precision.  ADULT x
2^53 followed by ADULT x1 is a sequence of well-formed requests whose adult
counts sum to 2^53 + 1, and `#countTickets` returns 2^53 adults. -/
theorem countTickets_rounds_large_sums :
    (∀ r ∈ [Req.ticket "ADULT" (.int (2 ^ 53)), .ticket "ADULT" (.int 1)],
      r.WellFormed) ∧
    adults [.ticket "ADULT" (.int (2 ^ 53)), .ticket "ADULT" (.int 1)] =
      2 ^ 53 + 1 ∧
    countTickets [.ticket "ADULT" (.int (2 ^ 53)), .ticket "ADULT" (.int 1)] =
      some ⟨.fin (2 ^ 53), .fin 0, .fin 0⟩ ∧
    countTickets [.ticket "ADULT" (.int (2 ^ 53)), .ticket "ADULT" (.int 1)] ≠
      some ⟨.fin
          (adults [.ticket "ADULT" (.int (2 ^ 53)), .ticket "ADULT" (.int 1)]),
        .fin
          (children
            [.ticket "ADULT" (.int (2 ^ 53)), .ticket "ADULT" (.int 1)]),
        .fin
          (infants
            [.ticket "ADULT" (.int (2 ^ 53)), .ticket "ADULT" (.int 1)])⟩ := by
  refine ⟨by decide, by decide, by decide, by decide⟩

/-- C16, amended: aggregation is a per-type sum as long as the sums stay below
2^53, where doubles hold every integer.  For two sequences of well-formed
requests whose per-type sums, taken together, stay below 2^53,
`#countTickets` returns for each type the sum of the counts of the requests of
that type, and the counts of the concatenation are the componentwise sums of
the counts of the two parts, so requests of one type add up.  A request with
count 0, of whatever type and wherever it stands, changes nothing, whatever
the sums. -/
theorem countTickets_sums_per_type (rs1 rs2 : List Req) (t : String)
    (hwf1 : ∀ r ∈ rs1, r.WellFormed) (hwf2 : ∀ r ∈ rs2, r.WellFormed) :
    ((adults rs1 + adults rs2 < 2 ^ 53 ∧
        children rs1 + children rs2 < 2 ^ 53 ∧
        infants rs1 + infants rs2 < 2 ^ 53) →
      countTickets rs1 =
        some ⟨.fin (adults rs1), .fin (children rs1), .fin (infants rs1)⟩ ∧
      countTickets rs2 =
        some ⟨.fin (adults rs2), .fin (children rs2), .fin (infants rs2)⟩ ∧
      countTickets (rs1 ++ rs2) =
        some ⟨.fin (adults rs1 + adults rs2),
          .fin (children rs1 + children rs2),
          .fin (infants rs1 + infants rs2)⟩) ∧
    countTickets (rs1 ++ .ticket t (.int 0) :: rs2) =
      countTickets (rs1 ++ rs2) := by
  have hwf12 : ∀ r ∈ rs1 ++ rs2, r.WellFormed := by
    intro r hr
    rcases List.mem_append.1 hr with h | h
    · exact hwf1 r h
    · exact hwf2 r h
  have ha1 : 0 ≤ adults rs1 := sumOf_nonneg _ _ hwf1
  have hc1 : 0 ≤ children rs1 := sumOf_nonneg _ _ hwf1
  have hi1 : 0 ≤ infants rs1 := sumOf_nonneg _ _ hwf1
  have ha2 : 0 ≤ adults rs2 := sumOf_nonneg _ _ hwf2
  have hc2 : 0 ≤ children rs2 := sumOf_nonneg _ _ hwf2
  have hi2 : 0 ≤ infants rs2 := sumOf_nonneg _ _ hwf2
  refine ⟨fun hb => ⟨?_, ?_, ?_⟩, ?_⟩
  · exact countTickets_wellFormed rs1 hwf1 (by omega) (by omega) (by omega)
  · exact countTickets_wellFormed rs2 hwf2 (by omega) (by omega) (by omega)
  · have e1 : adults (rs1 ++ rs2) = adults rs1 + adults rs2 :=
      sumOf_append _ _ _
    have e2 : children (rs1 ++ rs2) = children rs1 + children rs2 :=
      sumOf_append _ _ _
    have e3 : infants (rs1 ++ rs2) = infants rs1 + infants rs2 :=
      sumOf_append _ _ _
    rw [countTickets_wellFormed (rs1 ++ rs2) hwf12 (by omega) (by omega)
      (by omega), e1, e2, e3]
  · exact countLoop_insert_zero rs1 rs2 t (.fin 0) (.fin 0) (.fin 0)
      (by decide) (by decide) (by decide)

/-- Witness of C16: ADULT x1 followed by ADULT x2 counts as 3 adults. -/
theorem countTickets_sums_per_type_witness :
    countTickets ([.ticket "ADULT" (.int 1)] ++ [.ticket "ADULT" (.int 2)]) =
      some ⟨.fin (adults [.ticket "ADULT" (.int 1)] +
          adults [.ticket "ADULT" (.int 2)]),
        .fin (children [.ticket "ADULT" (.int 1)] +
          children [.ticket "ADULT" (.int 2)]),
        .fin (infants [.ticket "ADULT" (.int 1)] +
          infants [.ticket "ADULT" (.int 2)])⟩ ∧
    countTickets [.ticket "ADULT" (.int 1), .ticket "ADULT" (.int 2)] =
      some ⟨.fin 3, .fin 0, .fin 0⟩ :=
  ⟨((countTickets_sums_per_type [.ticket "ADULT" (.int 1)]
      [.ticket "ADULT" (.int 2)] "ADULT" (by decide) (by decide)).1
      ⟨by decide, by decide, by decide⟩).2.2,
    by decide⟩

/-- C17: unrecognized ticket types are silently ignored.  A request whose
type is none of `ADULT`, `CHILD`, `INFANT`, with any integer count `≥ 0`,
contributes nothing to the three sums; inserting it anywhere in a sequence, or
removing it, leaves the counts returned by `#countTickets` and the total
unchanged and, as long as the sequence without it is non-empty, leaves the
whole run of `purchaseTickets` unchanged: same verdict, same amount paid and
same seats reserved. -/
theorem purchaseTickets_ignores_unrecognized (svc : Collaborators)
    (accountId : JSVal) (rs1 rs2 : List Req) (t : String) (n : Int)
    (ht : Unrecognized t) (hn : 0 ≤ n) (hne : rs1 ++ rs2 ≠ []) :
    (Req.countOf "ADULT" (.ticket t (.int n)) = 0 ∧
      Req.countOf "CHILD" (.ticket t (.int n)) = 0 ∧
      Req.countOf "INFANT" (.ticket t (.int n)) = 0) ∧
    countTickets (rs1 ++ .ticket t (.int n) :: rs2) =
      countTickets (rs1 ++ rs2) ∧
    totalTickets (rs1 ++ .ticket t (.int n) :: rs2) =
      totalTickets (rs1 ++ rs2) ∧
    purchaseTickets svc accountId (rs1 ++ .ticket t (.int n) :: rs2) =
      purchaseTickets svc accountId (rs1 ++ rs2) := by
  have hzero : Req.countOf "ADULT" (.ticket t (.int n)) = 0 ∧
      Req.countOf "CHILD" (.ticket t (.int n)) = 0 ∧
      Req.countOf "INFANT" (.ticket t (.int n)) = 0 := by
    obtain ⟨h1, h2, h3⟩ := ht
    simp [Req.countOf, h1, h2, h3]
  refine ⟨hzero, countLoop_insert rs1 rs2 t n ht (.fin 0) (.fin 0) (.fin 0),
    ?_,
    purchaseTickets_insert svc accountId rs1 rs2 t n ht hn hne⟩
  simp only [totalTickets, adults, children, infants, sumOf_append,
    sumOf_cons, hzero.1, hzero.2.1, hzero.2.2, zero_add]

/-- Witness of C17: account 1 with ADULT x1 followed by 30 tickets of an
unknown type pays and reserves as for ADULT x1 alone. -/
theorem purchaseTickets_ignores_unrecognized_witness :
    purchaseTickets mockCollaborators (.int 1)
        ([.ticket "ADULT" (.int 1)] ++ .ticket "SENIOR" (.int 30) :: []) =
      purchaseTickets mockCollaborators (.int 1)
        ([.ticket "ADULT" (.int 1)] ++ []) ∧
    purchaseTickets mockCollaborators (.int 1)
        [.ticket "ADULT" (.int 1), .ticket "SENIOR" (.int 30)] =
      ⟨.returned, [.makePayment (.int 1) 25, .reserveSeat (.int 1) 1]⟩ :=
  ⟨(purchaseTickets_ignores_unrecognized mockCollaborators (.int 1)
      [.ticket "ADULT" (.int 1)] [] "SENIOR" 30
      ⟨by decide, by decide, by decide⟩ (by decide) (by decide)).2.2.2,
    by decide⟩

/-! ## Defensive checks, adults and bounds -/

/-- C18: the defensive integer checks of pricing and seat calculation are
unreachable.  On an input that passes the account check, the request-shape
check and the four business rules, `#countTickets` returns the exact per-type
sums; the products by 25 and 15 and the two sums computed from them are exact,
so the amount is an integer between 0 and 625 and the seat count an integer
between 0 and 25; `#calculateAmount` and `#calculateSeats` return them without
throwing; and `purchaseTickets` throws no `InvalidPurchaseException`, in
particular neither of the two defensive ones. -/
theorem defensive_checks_unreachable (svc : Collaborators)
    (accountId : JSVal) (requests : List Req)
    (h : PassesChecks accountId requests) :
    (∃ counts, countTickets requests = some counts ∧
      counts = ⟨.fin (adults requests), .fin (children requests),
        .fin (infants requests)⟩ ∧
      calculateAmount counts.adultCount counts.childCount =
        .ok (25 * adults requests + 15 * children requests) ∧
      calculateSeats counts.adultCount counts.childCount =
        .ok (adults requests + children requests)) ∧
    (0 ≤ 25 * adults requests + 15 * children requests ∧
      25 * adults requests + 15 * children requests ≤ 625) ∧
    (0 ≤ adults requests + children requests ∧
      adults requests + children requests ≤ 25) ∧
    ¬ (purchaseTickets svc accountId requests).failsInvalidPurchase := by
  have hb := passesChecks_bounds accountId requests h
  have ha : 0 ≤ adults requests := by omega
  refine ⟨⟨_, countTickets_wellFormed requests h.2.2.1 (by omega) (by omega)
      (by omega), rfl, ?_, ?_⟩,
    ⟨by omega, by omega⟩, ⟨by omega, by omega⟩, ?_⟩
  · exact calculateAmount_small _ _ ha hb.2.1 (by omega)
  · exact calculateSeats_small _ _ ha hb.2.1 (by omega)
  · rintro ⟨m, hm⟩
    rcases purchaseTickets_dichotomy svc accountId requests with hbad | hgood
    · exact hbad.1 h
    · rw [hgood.2] at hm
      exact callCollaborators_not_invalid svc accountId _ _ m hm

/-- Witness of C18: account 2 with ADULT x2, CHILD x1, INFANT x1. -/
theorem defensive_checks_unreachable_witness :
    (∃ counts,
      countTickets [.ticket "ADULT" (.int 2), .ticket "CHILD" (.int 1),
          .ticket "INFANT" (.int 1)] = some counts ∧
      counts =
        ⟨.fin (adults [.ticket "ADULT" (.int 2), .ticket "CHILD" (.int 1),
            .ticket "INFANT" (.int 1)]),
          .fin (children [.ticket "ADULT" (.int 2), .ticket "CHILD" (.int 1),
            .ticket "INFANT" (.int 1)]),
          .fin (infants [.ticket "ADULT" (.int 2), .ticket "CHILD" (.int 1),
            .ticket "INFANT" (.int 1)])⟩ ∧
      calculateAmount counts.adultCount counts.childCount =
        .ok (25 * adults [.ticket "ADULT" (.int 2), .ticket "CHILD" (.int 1),
              .ticket "INFANT" (.int 1)] +
            15 * children [.ticket "ADULT" (.int 2),
              .ticket "CHILD" (.int 1), .ticket "INFANT" (.int 1)]) ∧
      calculateSeats counts.adultCount counts.childCount =
        .ok (adults [.ticket "ADULT" (.int 2), .ticket "CHILD" (.int 1),
              .ticket "INFANT" (.int 1)] +
            children [.ticket "ADULT" (.int 2), .ticket "CHILD" (.int 1),
              .ticket "INFANT" (.int 1)])) ∧
    ¬ (purchaseTickets mockCollaborators (.int 2)
        [.ticket "ADULT" (.int 2), .ticket "CHILD" (.int 1),
          .ticket "INFANT" (.int 1)]).failsInvalidPurchase :=
  have hp : PassesChecks (.int 2)
      [.ticket "ADULT" (.int 2), .ticket "CHILD" (.int 1),
        .ticket "INFANT" (.int 1)] :=
    ⟨⟨2, rfl, by decide⟩, by decide, by decide, by decide, by decide,
      by decide, by decide⟩
  ⟨(defensive_checks_unreachable mockCollaborators _ _ hp).1,
    (defensive_checks_unreachable mockCollaborators _ _ hp).2.2.2⟩

/-- C19: no purchase without an adult ever succeeds.  For every account and
every sequence of requests whose adult sum is 0, `purchaseTickets` throws
`InvalidPurchaseException` and calls no collaborator, whatever the child and
infant sums are, both 0 included.  And for a valid account and a non-empty
sequence of well-formed requests that has passed the no-ticket and the
more-than-25 rules, the child-or-infant-without-adult rule is the one that
rejects exactly when the adult sum is 0; the condition of that rule, on
well-formed requests with at least one ticket, holds exactly when the adult
sum is 0. -/
theorem purchaseTickets_never_without_adult (svc : Collaborators)
    (accountId : JSVal) (requests : List Req) :
    (adults requests = 0 →
      (purchaseTickets svc accountId requests).failsInvalidPurchase ∧
        (purchaseTickets svc accountId requests).calls = []) ∧
    ((∃ k : Int, accountId = .int k ∧ 0 < k) → requests ≠ [] →
      (∀ r ∈ requests, r.WellFormed) →
      totalTickets requests ≠ 0 → totalTickets requests ≤ 25 →
      ((purchaseTickets svc accountId requests).outcome =
          .invalidPurchase
            "Child and Infant tickets require at least one Adult ticket" ↔
        adults requests = 0)) ∧
    ((∀ r ∈ requests, r.WellFormed) → totalTickets requests ≠ 0 →
      (Check.failsOn accountId requests .adultRequired = true ↔
        adults requests = 0)) := by
  refine ⟨?_, ?_, ?_⟩
  · intro ha
    rcases purchaseTickets_dichotomy svc accountId requests with hbad | hgood
    · exact hbad.2
    · have hb := passesChecks_bounds accountId requests hgood.1
      omega
  rotate_left
  · intro hwf h0
    simp only [totalTickets] at h0
    have hc : 0 ≤ children requests := sumOf_nonneg _ _ hwf
    have hi : 0 ≤ infants requests := sumOf_nonneg _ _ hwf
    simp only [Check.failsOn, decide_eq_true_eq]
    constructor
    · exact fun h => h.2
    · intro ha
      exact ⟨by omega, ha⟩
  · rintro ⟨k, hk, hpos⟩ hne hwf h0 h25
    subst hk
    simp only [totalTickets] at h0 h25
    have hc : 0 ≤ children requests := sumOf_nonneg _ _ hwf
    have hi : 0 ≤ infants requests := sumOf_nonneg _ _ hwf
    have hnpos : ¬ k ≤ 0 := by omega
    have hA : 0 ≤ adults requests := sumOf_nonneg _ _ hwf
    have hrun := purchaseTickets_wellFormed svc (.int k) requests hne hwf
    simp only [validateAccountId, hnpos, if_false] at hrun
    rw [hrun]
    have h25n : ¬ adults requests + children requests + infants requests >
        25 := by omega
    by_cases ha : adults requests = 0
    · have h5 : (children requests > 0 ∨ infants requests > 0) ∧
          adults requests = 0 := ⟨by omega, ha⟩
      rw [applyRules_adultRequired svc _ _ _ _ hA hc hi h0 h25n h5]
      simp [ha]
    · have h5 : ¬ ((children requests > 0 ∨ infants requests > 0) ∧
          adults requests = 0) := fun h => ha h.2
      by_cases h6 : infants requests > adults requests
      · rw [applyRules_infantsExceedAdults svc _ _ _ _ hA hc hi h0 h25n h5 h6]
        simp [ha]
      · rw [applyRules_pass svc _ _ _ _ hA hc hi h0 h25 h5 h6]
        simp only [ha, iff_false]
        exact callCollaborators_not_invalid svc _ _ _ _

/-- Witness of C19: account 1 with a single request of 0 adults is rejected,
and account 1 with CHILD x3 is rejected by the adult-required rule. -/
theorem purchaseTickets_never_without_adult_witness :
    ((purchaseTickets mockCollaborators (.int 1)
        [.ticket "ADULT" (.int 0)]).failsInvalidPurchase ∧
      (purchaseTickets mockCollaborators (.int 1)
        [.ticket "ADULT" (.int 0)]).calls = []) ∧
    (purchaseTickets mockCollaborators (.int 1)
      [.ticket "CHILD" (.int 3)]).outcome =
      .invalidPurchase
        "Child and Infant tickets require at least one Adult ticket" :=
  ⟨(purchaseTickets_never_without_adult mockCollaborators (.int 1)
      [.ticket "ADULT" (.int 0)]).1 (by decide),
    ((purchaseTickets_never_without_adult mockCollaborators (.int 1)
      [.ticket "CHILD" (.int 3)]).2.1 ⟨1, rfl, by decide⟩ (by decide)
      (by decide) (by decide) (by decide)).2 (by decide)⟩

/-- C20: bounds on what is charged and reserved.  Whenever `purchaseTickets`
returns normally, the amount passed to `makePayment` lies between 25 and 625
and is a multiple of 5, the seat count passed to `reserveSeat` lies between 1
and 25, and the amount lies between 15 and 25 times the seat count. -/
theorem purchaseTickets_bounds (svc : Collaborators) (accountId : JSVal)
    (requests : List Req)
    (h : (purchaseTickets svc accountId requests).outcome = .returned) :
    ∃ amount seats : Int,
      (purchaseTickets svc accountId requests).calls =
        [.makePayment accountId amount, .reserveSeat accountId seats] ∧
      25 ≤ amount ∧ amount ≤ 625 ∧ amount % 5 = 0 ∧
      1 ≤ seats ∧ seats ≤ 25 ∧
      15 * seats ≤ amount ∧ amount ≤ 25 * seats := by
  rcases purchaseTickets_dichotomy svc accountId requests with hbad | hgood
  · obtain ⟨_, ⟨m, hm⟩, _⟩ := hbad
    rw [hm] at h
    cases h
  · have hb := passesChecks_bounds accountId requests hgood.1
    rw [hgood.2] at h ⊢
    have hboth := (callCollaborators_returned svc accountId _ _).1 h
    refine ⟨25 * adults requests + 15 * children requests,
      adults requests + children requests, ?_, by omega, by omega, by omega,
      by omega, by omega, by omega, by omega⟩
    rcases callCollaborators_calls svc accountId
      (25 * adults requests + 15 * children requests)
      (adults requests + children requests) with hc | hc
    · exact absurd hboth.1 hc.1
    · exact hc.2

/-- Witness of C20: account 3 with ADULT x1, CHILD x5 pays 100 for 6 seats. -/
theorem purchaseTickets_bounds_witness :
    (purchaseTickets mockCollaborators (.int 3)
      [.ticket "ADULT" (.int 1), .ticket "CHILD" (.int 5)]).outcome =
      .returned ∧
    (∃ amount seats : Int,
      (purchaseTickets mockCollaborators (.int 3)
        [.ticket "ADULT" (.int 1), .ticket "CHILD" (.int 5)]).calls =
        [.makePayment (.int 3) amount, .reserveSeat (.int 3) seats] ∧
      25 ≤ amount ∧ amount ≤ 625 ∧ amount % 5 = 0 ∧
      1 ≤ seats ∧ seats ≤ 25 ∧
      15 * seats ≤ amount ∧ amount ≤ 25 * seats) ∧
    (purchaseTickets mockCollaborators (.int 3)
      [.ticket "ADULT" (.int 1), .ticket "CHILD" (.int 5)]).calls =
      [.makePayment (.int 3) 100, .reserveSeat (.int 3) 6] :=
  ⟨by decide,
    purchaseTickets_bounds mockCollaborators (.int 3)
      [.ticket "ADULT" (.int 1), .ticket "CHILD" (.int 5)] (by decide),
    by decide⟩

end TicketService
